import Mathlib

/-!
# Behaviour controller and grid notifiers of the MaNGOS world server

A shallow embedding of `src/game/AI/BaseAI/CreatureAI.cpp` and of the visitors of
`src/game/Grids/GridNotifiersImpl.h`.

* Objects reached through pointers are records holding what the code reads from them;
  a null pointer is `none`.
* Calls that leave the two files (combat, threat, movement, spell and aura subsystems,
  virtual hooks of derived controllers) are appended to a trace in program order, so that
  "is invoked", "is invoked once" and "is not invoked" are statements about a list.
* Lengths (`float` in the source) are exact integers in an arbitrary fixed unit.
-/

namespace MaNGOS

/-! ## Data model -/

/-- The identity of a world object; `0` is the empty guid. -/
abbrev ObjectGuid := Nat

/-- The two object kinds the visitors distinguish with `GetTypeId()`. -/
inductive TypeID where
  | TYPEID_UNIT
  | TYPEID_PLAYER
  deriving DecidableEq, Repr

/-- The `AIOrders` values named in `CreatureAI.cpp`; every other scripted order is `ORDER_OTHER`. -/
inductive AIOrders where
  | ORDER_NONE
  | ORDER_RETREATING
  | ORDER_FLEE_FROM_CALL_FOR_HELP
  | ORDER_CRITTER_FLEE
  | ORDER_OTHER (code : Nat)
  deriving DecidableEq, Repr

/-- The `ReactStates` values named in `CreatureAI.cpp`; any other value is `REACT_OTHER`. -/
inductive ReactStates where
  | REACT_PASSIVE
  | REACT_DEFENSIVE
  | REACT_OTHER (code : Nat)
  deriving DecidableEq, Repr

/-- The `DamageEffectType` values: `DamageTaken` only tells `INSTAKILL` from the rest. -/
inductive DamageEffectType where
  | INSTAKILL
  | OTHER_DAMAGE (code : Nat)
  deriving DecidableEq, Repr

/-- An applied aura record of a unit: `SpellAuraHolder`, with the effect indexes of the
auras attached to it in attachment order. -/
structure SpellAuraHolder where
  spellId : Nat
  casterGuid : ObjectGuid
  duration : Int
  auras : List Nat := []
  deriving DecidableEq, Repr

/-- What `GetVehicleInfo()` gives: the seat ids of the vehicle entry and the passenger
of each seat (`none` for an empty seat). -/
structure VehicleInfo where
  m_seatID : List Nat
  passengers : List (Option ObjectGuid)
  deriving DecidableEq, Repr

/-- The seat id `GetVehicleEntry()->m_seatID[i]`; an id of `0` is no seat. -/
def VehicleInfo.seatID (info : VehicleInfo) (i : Nat) : Nat := info.m_seatID.getD i 0

/-- The passenger in seat `i`, as `VehicleInfo::GetPassenger` returns it. -/
def VehicleInfo.GetPassenger (info : VehicleInfo) (i : Nat) : Option ObjectGuid :=
  info.passengers.getD i none

/-- A row of `sVehicleSeatStore`. -/
structure VehicleSeatEntry where
  m_flags : Nat
  deriving DecidableEq, Repr

/-- What the code reads from a `Unit*`, `Creature*` or `Player*`. -/
structure Unit where
  guid : ObjectGuid
  typeId : TypeID := TypeID.TYPEID_UNIT
  phaseMask : Nat := 1
  alive : Bool := true
  health : Nat := 1
  taxiFlying : Bool := false
  lostControl : Bool := false
  evadeMode : Bool := false
  hasAI : Bool := true
  playerControlled : Bool := false
  combatReach : Int := 0
  totem : Bool := false
  corpse : Bool := false
  gameMaster : Bool := false
  visibilityOff : Bool := false
  entry : Nat := 0
  victim : Option ObjectGuid := none
  unkillable : Bool := false
  noMeleeFlee : Bool := false
  civilian : Bool := false
  guard : Bool := false
  rooted : Bool := false
  inPanic : Bool := false
  factionFlags : Option Nat := none
  owner : Option ObjectGuid := none
  beneficiaryPlayer : Option ObjectGuid := none
  creatureTypeFlags : Nat := 0
  extraFlags : Nat := 0
  sessile : Bool := false
  noAggroOnSight : Bool := false
  charmInfo : Bool := false
  holders : List SpellAuraHolder := []
  vehicleInfo : Option VehicleInfo := none
  deriving DecidableEq, Repr

/-- The test `Unit::IsVehicle`. -/
def Unit.IsVehicle (u : Unit) : Bool := u.vehicleInfo.isSome

/-- Modelled from the spec: `WorldObject::InSamePhase`, declared outside `src/`; two
objects interact only when they share a phase, so the masks must have a common bit. -/
def Unit.InSamePhase (u : Unit) (phaseMask : Nat) : Bool := (u.phaseMask &&& phaseMask) != 0

/-! ## Behaviour controller (`CreatureAI.cpp`) -/

/-- A call from `CreatureAI` into a collaborator or into a virtual hook. -/
inductive Call where
  | JustPreventedDeath (dealer : Option ObjectGuid)
  | Attack (who : ObjectGuid) (melee : Bool)
  | EngageInCombatWith (who : ObjectGuid)
  | CastSpell (target : ObjectGuid) (spellId : Nat)
  | HandleMovementOnAttackStart (who : ObjectGuid) (targetChange : Bool)
  | AddThreat (who : ObjectGuid)
  | SetInCombatWith (self other : ObjectGuid)
  | MoveRetreat (ally : ObjectGuid) (victim : ObjectGuid) (delay : Nat)
  | DoStartMovement (victim : Option ObjectGuid)
  | UnitAI_TimedFleeingEnded
  | EnterEvadeMode
  | SetInPanic (duration : Nat)
  | UnitAI_EnterCombat (enemy : Option ObjectGuid)
  | DoFlee (duration : Nat)
  | SendZoneUnderAttackMessage (killer : ObjectGuid)
  | RequestFollowData (player creature : ObjectGuid)
  | MoveFollow (followee : ObjectGuid) (dist angle : Int)
  | RelinquishFollowData (player creature : ObjectGuid)
  deriving DecidableEq, Repr

/-- The controller: the fields of `CreatureAI`/`UnitAI` that `CreatureAI.cpp` reads and
writes, the creature it drives, and the calls it has made so far. -/
structure CreatureAI where
  m_creature : Unit
  m_deathPrevented : Bool := false
  m_currentAIOrder : AIOrders := AIOrders.ORDER_NONE
  m_combatScriptHappening : Bool := false
  m_reactState : ReactStates := ReactStates.REACT_OTHER 0
  m_meleeEnabled : Bool := true
  trace : List Call := []
  m_requestedFollower : ObjectGuid := 0
  m_followAngle : Int := 0
  m_followDist : Int := 0
  m_dismountOnAggro : Bool := true
  m_aiImmobilized : Bool := false
  m_visibilityDistance : Int := 0
  deriving DecidableEq, Repr

/-- Constants, stores and configuration the controller reads, none declared in `src/`. -/
structure World where
  MAX_VEHICLE_SEAT : Nat
  SEAT_FLAG_NOT_SELECTABLE : Nat
  SEAT_FLAG_HIDE_PASSENGER : Nat
  sVehicleSeatStore : Nat → Option VehicleSeatEntry
  CONFIG_FLOAT_CREATURE_FAMILY_FLEE_ASSISTANCE_RADIUS : Int
  CONFIG_UINT32_CREATURE_FAMILY_ASSISTANCE_DELAY : Nat
  /-- The outcome of `Unit::Attack(who, melee)` for the attacker. -/
  Attack : Unit → Unit → Bool → Bool
  /-- The outcome of `Unit::SetInPanic(duration)`: whether the timed panic is entered. -/
  SetInPanic : Unit → Nat → Bool
  CREATURE_TYPEFLAGS_MOUNTED_COMBAT : Nat
  CREATURE_EXTRA_FLAG_NO_MELEE : Nat
  CONFIG_FLOAT_SIGHT_GUARDER : Int
  /-- The lookup `Map::GetUnit(guid)`; `none` is a null pointer. -/
  GetUnit : ObjectGuid → Option Unit
  /-- The answer of `Player::RequestFollowData(guid)`: the follow angle and distance. -/
  RequestFollowData : Unit → ObjectGuid → Int × Int

/-- The calls made between two states of the controller. -/
def CreatureAI.callsSince (before after : CreatureAI) : List Call :=
  after.trace.drop before.trace.length

/-- Appends one outgoing call to the trace. -/
def CreatureAI.call (ai : CreatureAI) (c : Call) : CreatureAI :=
  { ai with trace := ai.trace ++ [c] }

/-- Modelled from the spec: `UnitAI::GetAIOrder`, declared outside `src/`; the order is
the current named behaviour-state value of the controller. -/
def CreatureAI.GetAIOrder (ai : CreatureAI) : AIOrders := ai.m_currentAIOrder

/-- Modelled from the spec: `UnitAI::SetAIOrder`, declared outside `src/`; it stores the
order. -/
def CreatureAI.SetAIOrder (ai : CreatureAI) (o : AIOrders) : CreatureAI :=
  { ai with m_currentAIOrder := o }

/-- Modelled from the spec: `UnitAI::SetCombatScriptStatus`, declared outside `src/`; it
stores the combat-script-active flag. -/
def CreatureAI.SetCombatScriptStatus (ai : CreatureAI) (state : Bool) : CreatureAI :=
  { ai with m_combatScriptHappening := state }

/-- Modelled from the spec: `UnitAI::HasReactState`, declared outside `src/`; it compares
the reactive policy of the controller. -/
def CreatureAI.HasReactState (ai : CreatureAI) (r : ReactStates) : Bool :=
  decide (ai.m_reactState = r)

/-- The function `CreatureAI::DamageTaken` (`damage` is read, never written). -/
def CreatureAI.DamageTaken (ai : CreatureAI) (dealer : Option ObjectGuid) (damage : Nat)
    (damageType : DamageEffectType) : CreatureAI :=
  if ai.m_creature.unkillable && decide (damageType ≠ DamageEffectType.INSTAKILL) then
    if ai.m_creature.health ≤ damage then
      if !ai.m_deathPrevented then
        ({ ai with m_deathPrevented := true }).call (Call.JustPreventedDeath dealer)
      else ai
    else ai
  else ai

/-- One iteration of the seat loop of `CreatureAI::AttackPassengersIfCan`. -/
def CreatureAI.attackSeat (w : World) (info : VehicleInfo) (ai : CreatureAI) (i : Nat) :
    CreatureAI :=
  let seatId := info.seatID i
  if seatId = 0 then ai
  else
    match info.GetPassenger i with
    | none => ai
    | some passenger =>
      match w.sVehicleSeatStore seatId with
      | none => ai
      | some seatEntry =>
        if (seatEntry.m_flags &&& w.SEAT_FLAG_NOT_SELECTABLE) != 0
            || (seatEntry.m_flags &&& w.SEAT_FLAG_HIDE_PASSENGER) != 0 then ai
        else
          ((ai.call (Call.AddThreat passenger)).call
            (Call.SetInCombatWith ai.m_creature.guid passenger)).call
            (Call.SetInCombatWith passenger ai.m_creature.guid)

/-- The calls one iteration of the seat loop of `AttackPassengersIfCan` makes for the
creature `self`: three for a seat with an id, a passenger and an entry without the
not-selectable and hide-passenger flags, none otherwise. -/
def seatCalls (w : World) (info : VehicleInfo) (self : ObjectGuid) (i : Nat) : List Call :=
  if info.seatID i = 0 then []
  else
    match info.GetPassenger i with
    | none => []
    | some passenger =>
      match w.sVehicleSeatStore (info.seatID i) with
      | none => []
      | some seatEntry =>
        if (seatEntry.m_flags &&& w.SEAT_FLAG_NOT_SELECTABLE) != 0
            || (seatEntry.m_flags &&& w.SEAT_FLAG_HIDE_PASSENGER) != 0 then []
        else
          [Call.AddThreat passenger, Call.SetInCombatWith self passenger,
            Call.SetInCombatWith passenger self]

/-- The function `CreatureAI::AttackPassengersIfCan`. The counter is a `uint8` and the
constant `MAX_VEHICLE_SEAT` is small, so the counter does not wrap. -/
def CreatureAI.AttackPassengersIfCan (w : World) (ai : CreatureAI) (who : Unit) : CreatureAI :=
  match who.vehicleInfo with
  | none => ai
  | some info => (List.range w.MAX_VEHICLE_SEAT).foldl (CreatureAI.attackSeat w info) ai

/-- The function `CreatureAI::AttackStart`. -/
def CreatureAI.AttackStart (w : World) (ai : CreatureAI) (who : Option Unit) : CreatureAI :=
  match who with
  | none => ai
  | some who =>
    if ai.HasReactState ReactStates.REACT_PASSIVE then ai
    else
      let targetChange :=
        ai.m_creature.victim.isSome && decide (ai.m_creature.victim ≠ some who.guid)
      let ai1 := ai.call (Call.Attack who.guid ai.m_meleeEnabled)
      if w.Attack ai.m_creature who ai.m_meleeEnabled then
        let ai2 := ai1.call (Call.EngageInCombatWith who.guid)
        let ai3 :=
          if ai2.m_creature.civilian then ai2.call (Call.CastSpell ai2.m_creature.guid 43783)
          else ai2
        let ai4 := ai3.call (Call.HandleMovementOnAttackStart who.guid targetChange)
        if who.IsVehicle then ai4.AttackPassengersIfCan w who else ai4
      else ai1

/-- The function `CreatureAI::RetreatingEnded`. -/
def CreatureAI.RetreatingEnded (ai : CreatureAI) : CreatureAI :=
  if ai.GetAIOrder ≠ AIOrders.ORDER_RETREATING then ai
  else
    let ai1 := (ai.SetAIOrder AIOrders.ORDER_NONE).SetCombatScriptStatus false
    if !ai1.m_creature.alive then ai1
    else ai1.call (Call.DoStartMovement ai1.m_creature.victim)

/-- A searcher of `GridNotifiers.h`: its phase mask, its check functor (whose own state
is `i_check`) and the object found so far. -/
structure Searcher (χ : Type) where
  i_phaseMask : Nat
  i_check : χ
  i_object : Option Unit := none

/-- The function `CreatureLastSearcher<Check>::Visit(CreatureMapType&)`; `check` is
`Check::operator()`, which may update the functor. -/
def CreatureLastSearcher.Visit {χ : Type} (check : χ → Unit → Bool × χ) (s : Searcher χ)
    (m : List Unit) : Searcher χ :=
  m.foldl (fun s u =>
    if !u.InSamePhase s.i_phaseMask then s
    else
      let r := check s.i_check u
      if r.1 then { s with i_check := r.2, i_object := some u }
      else { s with i_check := r.2 }) s

/-- The ally search of `CreatureAI::DoRetreat`: the check functor
`NearestAssistCreatureInCreatureRangeCheck` built for a creature, its victim and a
radius, and the creature collections of the cells `Cell::VisitGridObjects` reaches. -/
structure AssistSearch (χ : Type) where
  newCheck : Unit → ObjectGuid → Int → χ
  check : χ → Unit → Bool × χ
  cells : List (List Unit)

/-- Lines 191-195 of `CreatureAI::DoRetreat`: the searcher is built around the creature
and visits every cell; the result is what `ally` points to afterwards. -/
def CreatureAI.findAlly {χ : Type} (g : AssistSearch χ) (ai : CreatureAI) (victim : ObjectGuid)
    (radius : Int) : Option Unit :=
  let searcher : Searcher χ :=
    { i_phaseMask := ai.m_creature.phaseMask,
      i_check := g.newCheck ai.m_creature victim radius }
  (g.cells.foldl (CreatureLastSearcher.Visit g.check) searcher).i_object

/-- The function `CreatureAI::DoRetreat`. The retreat position is computed from the ally
and the victim, so the movement order is recorded with both. -/
def CreatureAI.DoRetreat {χ : Type} (w : World) (g : AssistSearch χ) (ai : CreatureAI) :
    Bool × CreatureAI :=
  match ai.m_creature.victim with
  | none => (false, ai)
  | some victim =>
    let radius := w.CONFIG_FLOAT_CREATURE_FAMILY_FLEE_ASSISTANCE_RADIUS
    if radius ≤ 0 then (false, ai)
    else
      match ai.findAlly g victim radius with
      | none => (false, ai)
      | some ally =>
        let delay := w.CONFIG_UINT32_CREATURE_FAMILY_ASSISTANCE_DELAY
        let ai1 := ai.call (Call.MoveRetreat ally.guid victim delay)
        (true, (ai1.SetAIOrder AIOrders.ORDER_RETREATING).SetCombatScriptStatus true)

/-- The function `CreatureAI::TimedFleeingEnded`; `FACTION_TEMPLATE_FLEE_FROM_CALL_FOR_HELP`
is the flag constant, declared outside `src/`. -/
def CreatureAI.TimedFleeingEnded (FACTION_TEMPLATE_FLEE_FROM_CALL_FOR_HELP : Nat)
    (ai : CreatureAI) : CreatureAI :=
  let ai1 := ai.call Call.UnitAI_TimedFleeingEnded
  let ai2 :=
    if ai1.GetAIOrder = AIOrders.ORDER_FLEE_FROM_CALL_FOR_HELP ∧ ai1.m_creature.alive = true then
      match ai1.m_creature.factionFlags with
      | none => ai1
      | some factionFlags =>
        if (factionFlags &&& FACTION_TEMPLATE_FLEE_FROM_CALL_FOR_HELP) != 0 then
          ai1.call Call.EnterEvadeMode
        else ai1
    else ai1
  let ai3 :=
    if ai2.GetAIOrder = AIOrders.ORDER_CRITTER_FLEE ∧ ai2.m_creature.alive = true then
      (ai2.SetCombatScriptStatus false).call Call.EnterEvadeMode
    else ai2
  ai3.SetAIOrder AIOrders.ORDER_NONE

/-- The function `CreatureAI::OnCallForHelp`; `FACTION_TEMPLATE_FLEE_FROM_CALL_FOR_HELP` is
the flag constant, declared outside `src/`. -/
def CreatureAI.OnCallForHelp (FACTION_TEMPLATE_FLEE_FROM_CALL_FOR_HELP : Nat) (w : World)
    (ai : CreatureAI) (enemy : Option Unit) : CreatureAI :=
  match ai.m_creature.factionFlags with
  | none => ai.AttackStart w enemy
  | some factionFlags =>
    if (factionFlags &&& FACTION_TEMPLATE_FLEE_FROM_CALL_FOR_HELP) != 0 then
      let ai1 := ai.call (Call.SetInPanic 10000)
      if w.SetInPanic ai.m_creature 10000 then
        ai1.SetAIOrder AIOrders.ORDER_FLEE_FROM_CALL_FOR_HELP
      else ai1
    else ai.AttackStart w enemy

/-- The function `CreatureAI::EnterCombat`; the base-class handler `UnitAI::EnterCombat`
and `UnitAI::DoFlee` are outside `src/` and recorded as calls. -/
def CreatureAI.EnterCombat (ai : CreatureAI) (enemy : Option Unit) : CreatureAI :=
  let ai1 := ai.call (Call.UnitAI_EnterCombat (enemy.map Unit.guid))
  let ai2 :=
    if ai1.m_creature.noMeleeFlee && !ai1.m_creature.rooted && !ai1.m_creature.inPanic
        && (match enemy with
            | some e => e.playerControlled
            | none => false) then
      (ai1.call (Call.DoFlee 30000)).SetAIOrder AIOrders.ORDER_CRITTER_FLEE
    else ai1
  match enemy with
  | none => ai2
  | some e =>
    if ai2.m_creature.guard || ai2.m_creature.civilian then
      match e.beneficiaryPlayer with
      | some pKiller => ai2.call (Call.SendZoneUnderAttackMessage pKiller)
      | none => ai2
    else ai2

/-- The function `CreatureAI::RequestFollow`; a guid is recorded as requested follower
only for a player. -/
def CreatureAI.RequestFollow (w : World) (ai : CreatureAI) (followee : Unit) : CreatureAI :=
  let ai1 :=
    if followee.typeId = TypeID.TYPEID_PLAYER then
      let data := w.RequestFollowData followee ai.m_creature.guid
      { ai.call (Call.RequestFollowData followee.guid ai.m_creature.guid) with
        m_followAngle := data.1
        m_followDist := data.2
        m_requestedFollower := followee.guid }
    else ai
  ai1.call (Call.MoveFollow followee.guid ai1.m_followDist ai1.m_followAngle)

/-- The function `CreatureAI::RelinquishFollow`; a guid converts to `true` when it is not
the empty guid. -/
def CreatureAI.RelinquishFollow (w : World) (ai : CreatureAI) (follower : ObjectGuid) :
    CreatureAI :=
  if ai.m_requestedFollower ≠ 0 ∧ (follower = 0 ∨ ai.m_requestedFollower = follower) then
    match w.GetUnit ai.m_requestedFollower with
    | none => ai
    | some owner =>
      if owner.typeId = TypeID.TYPEID_PLAYER then
        ai.call (Call.RelinquishFollowData owner.guid ai.m_creature.guid)
      else ai
  else ai

/-- Modelled from the spec: `UnitAI::SetMeleeEnabled`, declared outside `src/`; it stores
the melee-enabled state of the controller. -/
def CreatureAI.SetMeleeEnabled (ai : CreatureAI) (state : Bool) : CreatureAI :=
  { ai with m_meleeEnabled := state }

/-- Modelled from the spec: `UnitAI::SetAIImmobilizedState`, declared outside `src/`; it
stores the immobilized state of the controller. -/
def CreatureAI.SetAIImmobilizedState (ai : CreatureAI) (state : Bool) : CreatureAI :=
  { ai with m_aiImmobilized := state }

/-- Modelled from the spec: `UnitAI::SetReactState`, declared outside `src/`; it stores
the reactive policy of the controller. -/
def CreatureAI.SetReactState (ai : CreatureAI) (state : ReactStates) : CreatureAI :=
  { ai with m_reactState := state }

/-- The constructor `CreatureAI::CreatureAI(Creature*, uint32)`, applied to the controller
as the base-class constructor `UnitAI(creature, combatActions)` leaves it. -/
def CreatureAI.new (w : World) (unitAI : CreatureAI) : CreatureAI :=
  let ai0 := { unitAI with m_deathPrevented := false, m_followAngle := 0, m_followDist := 0 }
  let ai1 :=
    { ai0 with
      m_dismountOnAggro :=
        !((ai0.m_creature.creatureTypeFlags &&& w.CREATURE_TYPEFLAGS_MOUNTED_COMBAT) != 0) }
  let ai2 := ai1.SetMeleeEnabled (!ai1.m_creature.noMeleeFlee)
  let ai3 := if ai2.m_creature.sessile then ai2.SetAIImmobilizedState true else ai2
  let ai4 :=
    ai3.SetMeleeEnabled (!((ai3.m_creature.extraFlags &&& w.CREATURE_EXTRA_FLAG_NO_MELEE) != 0))
  let ai5 :=
    if ai4.m_creature.noAggroOnSight then ai4.SetReactState ReactStates.REACT_DEFENSIVE else ai4
  if ai5.m_creature.guard || ai5.m_creature.charmInfo then
    { ai5 with m_visibilityDistance := w.CONFIG_FLOAT_SIGHT_GUARDER }
  else ai5

/-! ## Searchers (`GridNotifiersImpl.h`)

The `Visit` bodies of the searchers are the same text for every searcher of a shape and
every collection type, so each shape is embedded once, over any element type with a phase
mask. -/

/-- Modelled from the spec: `WorldObject::InSamePhase` on the phase mask of any object,
declared outside `src/`; two objects interact only when they share a phase, so the masks
must have a common bit. -/
def InSamePhase {α : Type} (GetPhaseMask : α → Nat) (phaseMask : Nat) (a : α) : Bool :=
  (GetPhaseMask a &&& phaseMask) != 0

/-- A first-match or last-match searcher over objects of type `α`: its phase mask, its
check functor (whose own state is `i_check`) and the object found so far. -/
structure ObjectSearcher (α χ : Type) where
  i_phaseMask : Nat
  i_check : χ
  i_object : Option α := none

/-- A collect-all searcher over objects of type `α`: its phase mask, its check functor
and the sequence of objects collected so far. -/
structure ListSearcher (α χ : Type) where
  i_phaseMask : Nat
  i_check : χ
  i_objects : List α := []

/-- The loop of a first-match `Visit`: the first object in phase that the check accepts is
stored and the function returns. -/
def ObjectSearcher.firstLoop {α χ : Type} (GetPhaseMask : α → Nat) (check : χ → α → Bool × χ)
    (s : ObjectSearcher α χ) : List α → ObjectSearcher α χ
  | [] => s
  | a :: rest =>
    if !InSamePhase GetPhaseMask s.i_phaseMask a then
      ObjectSearcher.firstLoop GetPhaseMask check s rest
    else
      let r := check s.i_check a
      if r.1 then { s with i_check := r.2, i_object := some a }
      else ObjectSearcher.firstLoop GetPhaseMask check { s with i_check := r.2 } rest

/-- The body shared by `CreatureSearcher<Check>::Visit`, `UnitSearcher<Check>::Visit`,
`PlayerSearcher<Check>::Visit`, `GameObjectSearcher<Check>::Visit` and the five overloads of
`WorldObjectSearcher<Check>::Visit`. -/
def ObjectSearcher.VisitFirst {α χ : Type} (GetPhaseMask : α → Nat) (check : χ → α → Bool × χ)
    (s : ObjectSearcher α χ) (m : List α) : ObjectSearcher α χ :=
  if s.i_object.isSome then s
  else ObjectSearcher.firstLoop GetPhaseMask check s m

/-- The body shared by `CreatureLastSearcher<Check>::Visit`, `UnitLastSearcher<Check>::Visit`
and `GameObjectLastSearcher<Check>::Visit`. -/
def ObjectSearcher.VisitLast {α χ : Type} (GetPhaseMask : α → Nat) (check : χ → α → Bool × χ)
    (s : ObjectSearcher α χ) (m : List α) : ObjectSearcher α χ :=
  m.foldl (fun s a =>
    if !InSamePhase GetPhaseMask s.i_phaseMask a then s
    else
      let r := check s.i_check a
      if r.1 then { s with i_check := r.2, i_object := some a }
      else { s with i_check := r.2 }) s

/-- The body shared by `CreatureListSearcher<Check>::Visit`, `UnitListSearcher<Check>::Visit`,
`PlayerListSearcher<Check>::Visit`, `GameObjectListSearcher<Check>::Visit` and the five
overloads of `WorldObjectListSearcher<Check>::Visit`. -/
def ListSearcher.Visit {α χ : Type} (GetPhaseMask : α → Nat) (check : χ → α → Bool × χ)
    (s : ListSearcher α χ) (m : List α) : ListSearcher α χ :=
  m.foldl (fun s a =>
    if InSamePhase GetPhaseMask s.i_phaseMask a then
      let r := check s.i_check a
      if r.1 then { s with i_check := r.2, i_objects := s.i_objects ++ [a] }
      else { s with i_check := r.2 }
    else s) s

/-- What the searchers read from a `GameObject*`. -/
structure GameObject where
  guid : ObjectGuid
  phaseMask : Nat := 1
  deriving DecidableEq, Repr

/-- The function `CreatureSearcher<Check>::Visit(CreatureMapType&)`. -/
def CreatureSearcher.Visit {χ : Type} (check : χ → Unit → Bool × χ)
    (s : ObjectSearcher Unit χ) (m : List Unit) : ObjectSearcher Unit χ :=
  ObjectSearcher.VisitFirst Unit.phaseMask check s m

/-- The functions `UnitSearcher<Check>::Visit(CreatureMapType&)` and
`UnitSearcher<Check>::Visit(PlayerMapType&)`. -/
def UnitSearcher.Visit {χ : Type} (check : χ → Unit → Bool × χ)
    (s : ObjectSearcher Unit χ) (m : List Unit) : ObjectSearcher Unit χ :=
  ObjectSearcher.VisitFirst Unit.phaseMask check s m

/-- The function `PlayerSearcher<Check>::Visit(PlayerMapType&)`. -/
def PlayerSearcher.Visit {χ : Type} (check : χ → Unit → Bool × χ)
    (s : ObjectSearcher Unit χ) (m : List Unit) : ObjectSearcher Unit χ :=
  ObjectSearcher.VisitFirst Unit.phaseMask check s m

/-- The function `GameObjectSearcher<Check>::Visit(GameObjectMapType&)`. -/
def GameObjectSearcher.Visit {χ : Type} (check : χ → GameObject → Bool × χ)
    (s : ObjectSearcher GameObject χ) (m : List GameObject) : ObjectSearcher GameObject χ :=
  ObjectSearcher.VisitFirst GameObject.phaseMask check s m

/-- The functions `UnitLastSearcher<Check>::Visit(CreatureMapType&)` and
`UnitLastSearcher<Check>::Visit(PlayerMapType&)`. -/
def UnitLastSearcher.Visit {χ : Type} (check : χ → Unit → Bool × χ)
    (s : ObjectSearcher Unit χ) (m : List Unit) : ObjectSearcher Unit χ :=
  ObjectSearcher.VisitLast Unit.phaseMask check s m

/-- The function `GameObjectLastSearcher<Check>::Visit(GameObjectMapType&)`. -/
def GameObjectLastSearcher.Visit {χ : Type} (check : χ → GameObject → Bool × χ)
    (s : ObjectSearcher GameObject χ) (m : List GameObject) : ObjectSearcher GameObject χ :=
  ObjectSearcher.VisitLast GameObject.phaseMask check s m

/-- The function `CreatureListSearcher<Check>::Visit(CreatureMapType&)`. -/
def CreatureListSearcher.Visit {χ : Type} (check : χ → Unit → Bool × χ)
    (s : ListSearcher Unit χ) (m : List Unit) : ListSearcher Unit χ :=
  ListSearcher.Visit Unit.phaseMask check s m

/-- The functions `UnitListSearcher<Check>::Visit(PlayerMapType&)` and
`UnitListSearcher<Check>::Visit(CreatureMapType&)`. -/
def UnitListSearcher.Visit {χ : Type} (check : χ → Unit → Bool × χ)
    (s : ListSearcher Unit χ) (m : List Unit) : ListSearcher Unit χ :=
  ListSearcher.Visit Unit.phaseMask check s m

/-- The function `PlayerListSearcher<Check>::Visit(PlayerMapType&)`. -/
def PlayerListSearcher.Visit {χ : Type} (check : χ → Unit → Bool × χ)
    (s : ListSearcher Unit χ) (m : List Unit) : ListSearcher Unit χ :=
  ListSearcher.Visit Unit.phaseMask check s m

/-- The function `GameObjectListSearcher<Check>::Visit(GameObjectMapType&)`. -/
def GameObjectListSearcher.Visit {χ : Type} (check : χ → GameObject → Bool × χ)
    (s : ListSearcher GameObject χ) (m : List GameObject) : ListSearcher GameObject χ :=
  ListSearcher.Visit GameObject.phaseMask check s m

/-- The five overloads of `WorldObjectSearcher<Check>::Visit` (game objects, players,
creatures, corpses and dynamic objects), for the element type of the collection. -/
def WorldObjectSearcher.Visit {α χ : Type} (GetPhaseMask : α → Nat) (check : χ → α → Bool × χ)
    (s : ObjectSearcher α χ) (m : List α) : ObjectSearcher α χ :=
  ObjectSearcher.VisitFirst GetPhaseMask check s m

/-- The five overloads of `WorldObjectListSearcher<Check>::Visit`, for the element type of
the collection. -/
def WorldObjectListSearcher.Visit {α χ : Type} (GetPhaseMask : α → Nat)
    (check : χ → α → Bool × χ) (s : ListSearcher α χ) (m : List α) : ListSearcher α χ :=
  ListSearcher.Visit GetPhaseMask check s m

/-- The function `ObjectUpdater::Visit(CreatureMapType&)`: every creature of the
collection is put into the set of objects to update. -/
def ObjectUpdater.Visit (m_objectToUpdateSet : List ObjectGuid) (m : List Unit) :
    List ObjectGuid :=
  m.foldl (fun set creature => if creature.guid ∈ set then set else set ++ [creature.guid])
    m_objectToUpdateSet

/-- The check functor of a pure predicate; its state is the sequence of the objects the
predicate has been evaluated on. -/
def evaluating {α : Type} (predicate : α → Bool) : List α → α → Bool × List α :=
  fun evaluated a => (predicate a, evaluated ++ [a])

/-- The view of a `Searcher` over units as an `ObjectSearcher`. -/
def Searcher.toObjectSearcher {χ : Type} (s : Searcher χ) : ObjectSearcher Unit χ :=
  { i_phaseMask := s.i_phaseMask, i_check := s.i_check, i_object := s.i_object }

/-! ## Visibility notifier (`GridNotifiersImpl.h`) -/

/-- A call into a controller made by a visibility pass: `unitA->AI()->IsVisible(unitB)`
or `unitA->AI()->MoveInLineOfSight(unitB)`. -/
inductive Perception where
  | IsVisible (unitA unitB : Unit)
  | MoveInLineOfSight (unitA unitB : Unit)
  deriving DecidableEq, Repr

/-- The function `UnitVisitObjectsNotifierWorker`. `IsVisible` is the answer of the
controller of `unitA`; the result is `none` when the worker dereferences a null
controller, which the source leaves undefined. -/
def UnitVisitObjectsNotifierWorker (IsVisible : Unit → Unit → Bool) (calls : List Perception)
    (unitA unitB : Unit) : Option (List Perception) :=
  if unitA.lostControl || unitA.evadeMode then some calls
  else if !unitA.hasAI then none
  else if !IsVisible unitA unitB then some (calls ++ [Perception.IsVisible unitA unitB])
  else
    some (calls ++ [Perception.IsVisible unitA unitB, Perception.MoveInLineOfSight unitA unitB])

/-- The function `PlayerVisitObjectsNotifier::Visit(CreatureMapType&)`. -/
def PlayerVisitObjectsNotifier.Visit_CreatureMapType (IsVisible : Unit → Unit → Bool)
    (i_player : Unit) (calls : List Perception) (m : List Unit) : Option (List Perception) :=
  if !i_player.alive || i_player.taxiFlying then some calls
  else
    let playerHasAI := i_player.hasAI
    m.foldlM (fun calls creature =>
      if !creature.alive then some calls
      else do
        let calls ← UnitVisitObjectsNotifierWorker IsVisible calls creature i_player
        if playerHasAI then UnitVisitObjectsNotifierWorker IsVisible calls i_player creature
        else some calls) calls

/-- The function `PlayerVisitObjectsNotifier::Visit(PlayerMapType&)`. -/
def PlayerVisitObjectsNotifier.Visit_PlayerMapType (IsVisible : Unit → Unit → Bool)
    (i_player : Unit) (calls : List Perception) (m : List Unit) : Option (List Perception) :=
  if !i_player.alive || i_player.taxiFlying then some calls
  else
    let playerHasAI := i_player.hasAI
    m.foldlM (fun calls player =>
      if player.alive && !player.taxiFlying then some calls
      else do
        let calls ←
          if player.hasAI then UnitVisitObjectsNotifierWorker IsVisible calls player i_player
          else some calls
        if playerHasAI then UnitVisitObjectsNotifierWorker IsVisible calls i_player player
        else some calls) calls

/-- The function `CreatureVisitObjectsNotifier::Visit(PlayerMapType&)`. -/
def CreatureVisitObjectsNotifier.Visit_PlayerMapType (IsVisible : Unit → Unit → Bool)
    (i_creature : Unit) (calls : List Perception) (m : List Unit) : Option (List Perception) :=
  if !i_creature.alive then some calls
  else
    m.foldlM (fun calls player =>
      if !player.alive || player.taxiFlying then some calls
      else do
        let calls ←
          if player.hasAI then UnitVisitObjectsNotifierWorker IsVisible calls player i_creature
          else some calls
        UnitVisitObjectsNotifierWorker IsVisible calls i_creature player) calls

/-- The function `CreatureVisitObjectsNotifier::Visit(CreatureMapType&)`; two pointers
are equal when they name the same object. -/
def CreatureVisitObjectsNotifier.Visit_CreatureMapType (IsVisible : Unit → Unit → Bool)
    (i_creature : Unit) (calls : List Perception) (m : List Unit) : Option (List Perception) :=
  if !i_creature.alive then some calls
  else
    m.foldlM (fun calls creature =>
      if decide (creature.guid = i_creature.guid) || !creature.alive then some calls
      else do
        let calls ← UnitVisitObjectsNotifierWorker IsVisible calls creature i_creature
        UnitVisitObjectsNotifierWorker IsVisible calls i_creature creature) calls

/-- How many times `unitA->AI()->MoveInLineOfSight(unitB)` occurs in a pass. -/
def countMoveInLineOfSight (unitA unitB : Unit) (calls : List Perception) : Nat :=
  calls.count (Perception.MoveInLineOfSight unitA unitB)

/-- Whether a call respects the lost-control and evade gates: a `MoveInLineOfSight` is
received by a controller whose unit is neither in lost control nor evading. -/
def Perception.gated : Perception → Bool
  | Perception.IsVisible _ _ => true
  | Perception.MoveInLineOfSight unitA _ => !unitA.lostControl && !unitA.evadeMode

/-- Whether a call respects the alive gate: a `MoveInLineOfSight` is received by the
controller of a living unit. -/
def Perception.byLiving : Perception → Bool
  | Perception.IsVisible _ _ => true
  | Perception.MoveInLineOfSight unitA _ => unitA.alive

/-! ## Area-effect updater (`GridNotifiersImpl.h`) -/

/-- The `SpellTargetType` values `VisitHelper` names; any other value is
`SPELL_TARGET_TYPE_OTHER`. -/
inductive SpellTargetType where
  | SPELL_TARGET_TYPE_GAMEOBJECT
  | SPELL_TARGET_TYPE_CREATURE
  | SPELL_TARGET_TYPE_DEAD
  | SPELL_TARGET_TYPE_GAMEOBJECT_GUID
  | SPELL_TARGET_TYPE_OTHER (code : Nat)
  deriving DecidableEq, Repr

/-- A row of `sSpellScriptTargetStorage`, with the effect indexes it cannot hit. -/
structure SpellTargetEntry where
  type : SpellTargetType
  targetEntry : Nat
  cannotHit : List Nat := []
  deriving DecidableEq, Repr

/-- The test `SpellTargetEntry::CanNotHitWithSpellEffect`. -/
def SpellTargetEntry.CanNotHitWithSpellEffect (e : SpellTargetEntry) (effIndex : Nat) : Bool :=
  decide (effIndex ∈ e.cannotHit)

/-- The `SpellEntry` fields and attributes `VisitHelper` reads. -/
structure SpellEntry where
  Id : Nat
  SPELL_ATTR_EX3_ONLY_ON_PLAYER : Bool := false
  SPELL_ATTR_EX5_NOT_ON_PLAYER : Bool := false
  SPELL_ATTR_EX5_NOT_ON_PLAYER_CONTROLLED_NPC : Bool := false
  SPELL_ATTR_NO_IMMUNITIES : Bool := false
  SPELL_ATTR_EX2_IGNORE_LINE_OF_SIGHT : Bool := false
  deriving DecidableEq, Repr

/-- The anchor of a persistent area effect: `DynamicObject`, with the caster and the
spell entry its guid and spell id resolve to. -/
structure DynamicObject where
  caster : Unit
  spellInfo : SpellEntry
  effIndex : Nat
  radius : Int
  duration : Nat
  affected : List ObjectGuid := []
  phaseMask : Nat := 1
  scriptTarget : Bool := false
  deriving DecidableEq, Repr

/-- The getter `DynamicObject::GetCasterGuid`: the guid `GetCaster()` resolves. -/
def DynamicObject.GetCasterGuid (d : DynamicObject) : ObjectGuid := d.caster.guid

/-- The test `DynamicObject::IsAffecting`. -/
def DynamicObject.IsAffecting (d : DynamicObject) (target : Unit) : Bool :=
  decide (target.guid ∈ d.affected)

/-- The update `DynamicObject::AddAffected`; the affected targets are a set. -/
def DynamicObject.AddAffected (d : DynamicObject) (target : Unit) : DynamicObject :=
  if target.guid ∈ d.affected then d else { d with affected := d.affected ++ [target.guid] }

/-- A call `VisitHelper` makes into the spell and aura subsystem. -/
inductive AuraCall where
  | CanAssistSpell (target : ObjectGuid)
  | CanAttackSpell (target : ObjectGuid)
  | CreateSpellAuraHolder (target : ObjectGuid)
  | NewPersistentAreaAura (target : ObjectGuid) (effIndex : Nat)
  | AddAuraToModList (target : ObjectGuid) (effIndex : Nat)
  | ApplyModifier (target : ObjectGuid) (effIndex : Nat)
  | SendAuraUpdate (target : ObjectGuid)
  | AddSpellAuraHolder (target : ObjectGuid)
  | DeleteHolder (target : ObjectGuid)
  | CasterHitTargetWithSpell (target : ObjectGuid)
  deriving DecidableEq, Repr

/-- The visitor `DynamicObjectUpdater` and the calls it has made so far. -/
structure DynamicObjectUpdater where
  i_dynobject : DynamicObject
  i_check : ObjectGuid
  i_positive : Bool
  i_script : Bool
  calls : List AuraCall := []
  deriving DecidableEq, Repr

/-- The constructor `DynamicObjectUpdater::DynamicObjectUpdater`: the unit the
game-master check compares with is the owner of the caster when it has one, the caster
otherwise. `scriptTarget` says whether `GetTarget()` is one of the two script targets
`TARGET_ENUM_UNITS_SCRIPT_AOE_AT_DEST_LOC` and `TARGET_ENUM_UNITS_SCRIPT_AOE_AT_DYNOBJ_LOC`. -/
def DynamicObjectUpdater.new (dynobject : DynamicObject) (caster : Unit) (positive : Bool) :
    DynamicObjectUpdater :=
  { i_dynobject := dynobject
    i_positive := positive
    i_script := dynobject.scriptTarget
    i_check :=
      match caster.owner with
      | some owner => owner
      | none => caster.guid }

/-- Stores and answers of the spell subsystem that `VisitHelper` consults, none declared
in `src/`. `GetDistance` is the squared distance from the anchor
(`DIST_CALC_NONE`). -/
structure SpellWorld where
  sSpellScriptTargetStorage : Nat → List SpellTargetEntry
  GetDistance : DynamicObject → Unit → Int
  CanAssistSpell : Unit → Unit → SpellEntry → Bool
  CanAttackSpell : Unit → Unit → SpellEntry → Bool
  IsImmuneToSpell : Unit → SpellEntry → Nat → Unit → Bool
  IsImmuneToSpellEffect : Unit → SpellEntry → Nat → Bool
  IsWithinLOSInMap : DynamicObject → Unit → Bool
  AddSpellAuraHolder : Unit → SpellAuraHolder → Bool

/-- Whether a holder is the one `GetSpellAuraHolder(spellId, casterGuid)` looks for. -/
def SpellAuraHolder.isFor (spellId : Nat) (casterGuid : ObjectGuid) (h : SpellAuraHolder) :
    Bool :=
  decide (h.spellId = spellId) && decide (h.casterGuid = casterGuid)

/-- The lookup `Unit::GetSpellAuraHolder(spellId, casterGuid)`: the first holder of the
unit with that spell and caster. -/
def Unit.GetSpellAuraHolder (u : Unit) (spellId : Nat) (casterGuid : ObjectGuid) :
    Option SpellAuraHolder :=
  u.holders.find? (SpellAuraHolder.isFor spellId casterGuid)

/-- The test `SpellAuraHolder::GetAuraByEffectIndex` as a boolean. -/
def SpellAuraHolder.GetAuraByEffectIndex (h : SpellAuraHolder) (effIndex : Nat) : Bool :=
  decide (effIndex ∈ h.auras)

/-- The update `SpellAuraHolder::AddAura`. -/
def SpellAuraHolder.AddAura (h : SpellAuraHolder) (effIndex : Nat) : SpellAuraHolder :=
  { h with auras := h.auras ++ [effIndex] }

/-- The update `SpellAuraHolder::SetAuraDuration`. -/
def SpellAuraHolder.SetAuraDuration (h : SpellAuraHolder) (duration : Nat) : SpellAuraHolder :=
  { h with duration := (duration : Int) }

/-- Writes through the pointer `GetSpellAuraHolder` returned: the first holder of that
spell and caster becomes `f` of itself. -/
def updateHolder (spellId : Nat) (casterGuid : ObjectGuid) (f : SpellAuraHolder → SpellAuraHolder) :
    List SpellAuraHolder → List SpellAuraHolder
  | [] => []
  | h :: rest =>
    if SpellAuraHolder.isFor spellId casterGuid h then f h :: rest
    else h :: updateHolder spellId casterGuid f rest

/-- The loop of `VisitHelper` over the target-entry override list, giving `found`. -/
def scriptTargetFound (effIndex : Nat) (target : Unit) : List SpellTargetEntry → Bool
  | [] => false
  | e :: rest =>
    if e.CanNotHitWithSpellEffect effIndex then scriptTargetFound effIndex target rest
    else if e.type = SpellTargetType.SPELL_TARGET_TYPE_GAMEOBJECT
        ∨ e.type = SpellTargetType.SPELL_TARGET_TYPE_GAMEOBJECT_GUID then
      scriptTargetFound effIndex target rest
    else if target.entry = e.targetEntry then
      if e.type = SpellTargetType.SPELL_TARGET_TYPE_DEAD ∧ target.corpse = true then true
      else if e.type = SpellTargetType.SPELL_TARGET_TYPE_CREATURE ∧ target.alive = true then true
      else false
    else scriptTargetFound effIndex target rest

/-- Lines 194-213 of `VisitHelper`: whether the candidate survives the state, range,
evade and game-master checks. -/
def DynamicObjectUpdater.passesUnitChecks (w : SpellWorld) (u : DynamicObjectUpdater)
    (target : Unit) : Bool :=
  if !target.alive || target.taxiFlying then false
  else if decide (target.typeId = TypeID.TYPEID_UNIT) && target.totem then false
  else
    let caster := u.i_dynobject.caster
    let radius := u.i_dynobject.radius
    let radius :=
      if caster.playerControlled && !target.playerControlled then radius + target.combatReach
      else radius
    if w.GetDistance u.i_dynobject target > radius * radius then false
    else if target.evadeMode then false
    else if decide (target.typeId = TypeID.TYPEID_PLAYER) && decide (target.guid ≠ u.i_check)
        && (target.gameMaster || target.visibilityOff) then false
    else true

/-- Lines 201-203 of `VisitHelper`: the radius of the in-range test for a candidate. -/
def DynamicObjectUpdater.rangeRadius (u : DynamicObjectUpdater) (target : Unit) : Int :=
  let caster := u.i_dynobject.caster
  let radius := u.i_dynobject.radius
  if caster.playerControlled && !target.playerControlled then radius + target.combatReach
  else radius

/-- In the words of the specification: the radius is adjusted for the target's collision
size when caster and target differ in control type. -/
def DynamicObjectUpdater.radiusByControlType (u : DynamicObjectUpdater) (target : Unit) : Int :=
  if u.i_dynobject.caster.playerControlled ≠ target.playerControlled then
    u.i_dynobject.radius + target.combatReach
  else u.i_dynobject.radius

/-- Lines 218-259 of `VisitHelper`: the targeting stage, with the relationship rules it
consulted. -/
def DynamicObjectUpdater.targeting (w : SpellWorld) (u : DynamicObjectUpdater) (target : Unit) :
    DynamicObjectUpdater × Bool :=
  let caster := u.i_dynobject.caster
  let spellInfo := u.i_dynobject.spellInfo
  let bounds := w.sSpellScriptTargetStorage spellInfo.Id
  if bounds ≠ [] then (u, scriptTargetFound u.i_dynobject.effIndex target bounds)
  else if !u.i_script then
    if u.i_positive then
      ({ u with calls := u.calls ++ [AuraCall.CanAssistSpell target.guid] },
        w.CanAssistSpell caster target spellInfo)
    else
      ({ u with calls := u.calls ++ [AuraCall.CanAttackSpell target.guid] },
        w.CanAttackSpell caster target spellInfo)
  else (u, true)

/-- Lines 261-276 of `VisitHelper`: the spell attribute, immunity and line-of-sight
checks. -/
def DynamicObjectUpdater.passesSpellChecks (w : SpellWorld) (u : DynamicObjectUpdater)
    (target : Unit) : Bool :=
  let caster := u.i_dynobject.caster
  let spellInfo := u.i_dynobject.spellInfo
  let eff_index := u.i_dynobject.effIndex
  if spellInfo.SPELL_ATTR_EX3_ONLY_ON_PLAYER && decide (target.typeId ≠ TypeID.TYPEID_PLAYER) then
    false
  else if spellInfo.SPELL_ATTR_EX5_NOT_ON_PLAYER
      && decide (target.typeId = TypeID.TYPEID_PLAYER) then false
  else if spellInfo.SPELL_ATTR_EX5_NOT_ON_PLAYER_CONTROLLED_NPC && target.playerControlled
      && decide (target.typeId ≠ TypeID.TYPEID_PLAYER) then false
  else if !spellInfo.SPELL_ATTR_NO_IMMUNITIES
      && (w.IsImmuneToSpell target spellInfo (1 <<< eff_index) caster
        || w.IsImmuneToSpellEffect target spellInfo eff_index) then false
  else if !spellInfo.SPELL_ATTR_EX2_IGNORE_LINE_OF_SIGHT
      && !w.IsWithinLOSInMap u.i_dynobject target then false
  else true

/-- Whether a candidate reaches the application stage of `VisitHelper`: it passes
every check of lines 194-276. -/
def DynamicObjectUpdater.eligible (w : SpellWorld) (u : DynamicObjectUpdater) (target : Unit) :
    Bool :=
  u.passesUnitChecks w target && (u.targeting w target).2 && u.passesSpellChecks w target

/-- The calls made between two states of the updater. -/
def DynamicObjectUpdater.callsSince (before after : DynamicObjectUpdater) : List AuraCall :=
  after.calls.drop before.calls.length

/-- The holders of a unit for one spell and caster. -/
def Unit.holdersFor (u : Unit) (spellId : Nat) (casterGuid : ObjectGuid) : List SpellAuraHolder :=
  u.holders.filter (SpellAuraHolder.isFor spellId casterGuid)

/-- Lines 278-311 of `VisitHelper`: the application of the persistent area aura. The
cast `uint32(holder->GetAuraDuration())` is applied to a non-negative duration only, where
it keeps the value. -/
def DynamicObjectUpdater.apply (w : SpellWorld) (u : DynamicObjectUpdater) (target : Unit) :
    DynamicObjectUpdater × Unit :=
  let spellInfo := u.i_dynobject.spellInfo
  let eff_index := u.i_dynobject.effIndex
  let casterGuid := u.i_dynobject.GetCasterGuid
  let r : DynamicObjectUpdater × Unit :=
    match target.GetSpellAuraHolder spellInfo.Id casterGuid with
    | some holder =>
      if !holder.GetAuraByEffectIndex eff_index then
        ({ u with calls := u.calls ++ [AuraCall.NewPersistentAreaAura target.guid eff_index,
              AuraCall.AddAuraToModList target.guid eff_index,
              AuraCall.ApplyModifier target.guid eff_index] },
          { target with
            holders := updateHolder spellInfo.Id casterGuid (SpellAuraHolder.AddAura · eff_index)
              target.holders })
      else if decide (0 ≤ holder.duration)
          && decide (holder.duration.toNat < u.i_dynobject.duration) then
        ({ u with calls := u.calls ++ [AuraCall.SendAuraUpdate target.guid] },
          { target with
            holders := updateHolder spellInfo.Id casterGuid
              (SpellAuraHolder.SetAuraDuration · u.i_dynobject.duration) target.holders })
      else (u, target)
    | none =>
      let holder : SpellAuraHolder :=
        { spellId := spellInfo.Id, casterGuid := u.i_dynobject.caster.guid, duration := 0 }
      let holder := (holder.SetAuraDuration u.i_dynobject.duration).AddAura eff_index
      let u1 := { u with calls := u.calls ++ [AuraCall.CreateSpellAuraHolder target.guid,
            AuraCall.NewPersistentAreaAura target.guid eff_index,
            AuraCall.AddSpellAuraHolder target.guid] }
      if !w.AddSpellAuraHolder target holder then
        ({ u1 with calls := u1.calls ++ [AuraCall.DeleteHolder target.guid] }, target)
      else (u1, { target with holders := target.holders ++ [holder] })
  if !r.1.i_dynobject.IsAffecting target then
    ({ r.1 with i_dynobject := r.1.i_dynobject.AddAffected target,
                calls := r.1.calls ++ [AuraCall.CasterHitTargetWithSpell target.guid] }, r.2)
  else r

/-- Lines 278-305 of `VisitHelper` on their own: the holder of the caster and spell is
extended, or created and offered to the target. -/
def DynamicObjectUpdater.applyHolder (w : SpellWorld) (u : DynamicObjectUpdater)
    (target : Unit) : DynamicObjectUpdater × Unit :=
  let spellInfo := u.i_dynobject.spellInfo
  let eff_index := u.i_dynobject.effIndex
  let casterGuid := u.i_dynobject.GetCasterGuid
  match target.GetSpellAuraHolder spellInfo.Id casterGuid with
  | some holder =>
    if !holder.GetAuraByEffectIndex eff_index then
      ({ u with calls := u.calls ++ [AuraCall.NewPersistentAreaAura target.guid eff_index,
            AuraCall.AddAuraToModList target.guid eff_index,
            AuraCall.ApplyModifier target.guid eff_index] },
        { target with
          holders := updateHolder spellInfo.Id casterGuid (SpellAuraHolder.AddAura · eff_index)
            target.holders })
    else if decide (0 ≤ holder.duration)
        && decide (holder.duration.toNat < u.i_dynobject.duration) then
      ({ u with calls := u.calls ++ [AuraCall.SendAuraUpdate target.guid] },
        { target with
          holders := updateHolder spellInfo.Id casterGuid
            (SpellAuraHolder.SetAuraDuration · u.i_dynobject.duration) target.holders })
    else (u, target)
  | none =>
    let holder : SpellAuraHolder :=
      { spellId := spellInfo.Id, casterGuid := u.i_dynobject.caster.guid, duration := 0 }
    let holder := (holder.SetAuraDuration u.i_dynobject.duration).AddAura eff_index
    let u1 := { u with calls := u.calls ++ [AuraCall.CreateSpellAuraHolder target.guid,
          AuraCall.NewPersistentAreaAura target.guid eff_index,
          AuraCall.AddSpellAuraHolder target.guid] }
    if !w.AddSpellAuraHolder target holder then
      ({ u1 with calls := u1.calls ++ [AuraCall.DeleteHolder target.guid] }, target)
    else (u1, { target with holders := target.holders ++ [holder] })

/-- Lines 307-311 of `VisitHelper` on their own: a target not yet recorded as affected is
recorded and the on-hit callback is invoked for it. -/
def DynamicObjectUpdater.recordHit (r : DynamicObjectUpdater × Unit) (target : Unit) :
    DynamicObjectUpdater × Unit :=
  if !r.1.i_dynobject.IsAffecting target then
    ({ r.1 with i_dynobject := r.1.i_dynobject.AddAffected target,
                calls := r.1.calls ++ [AuraCall.CasterHitTargetWithSpell target.guid] }, r.2)
  else r

/-- The function `DynamicObjectUpdater::VisitHelper`. -/
def DynamicObjectUpdater.VisitHelper (w : SpellWorld) (u : DynamicObjectUpdater) (target : Unit) :
    DynamicObjectUpdater × Unit :=
  if !u.passesUnitChecks w target then (u, target)
  else
    let t := u.targeting w target
    if !t.2 then (t.1, target)
    else if !t.1.passesSpellChecks w target then (t.1, target)
    else t.1.apply w target

/-- The functions `DynamicObjectUpdater::Visit(CreatureMapType&)` and
`DynamicObjectUpdater::Visit(PlayerMapType&)`: `VisitHelper` on every unit of the
collection; the result holds the units as the pass left them. -/
def DynamicObjectUpdater.Visit (w : SpellWorld) (u : DynamicObjectUpdater) (m : List Unit) :
    DynamicObjectUpdater × List Unit :=
  m.foldl (fun r target =>
    let r2 := r.1.VisitHelper w target
    (r2.1, r.2 ++ [r2.2])) (u, [])

/-- A sequence of `VisitHelper` passes of one anchor, each on the target as it is then
and in the world as it is then; the result is the updater after the last pass. -/
def DynamicObjectUpdater.passes (u : DynamicObjectUpdater) (ps : List (SpellWorld × Unit)) :
    DynamicObjectUpdater :=
  ps.foldl (fun u p => (u.VisitHelper p.1 p.2).1) u

/-- In the words of the specification: an entry of the override list is usable when it
can hit with the effect index and is not of a game-object type. -/
def SpellTargetEntry.usable (effIndex : Nat) (e : SpellTargetEntry) : Bool :=
  !e.CanNotHitWithSpellEffect effIndex
    && decide (e.type ≠ SpellTargetType.SPELL_TARGET_TYPE_GAMEOBJECT)
    && decide (e.type ≠ SpellTargetType.SPELL_TARGET_TYPE_GAMEOBJECT_GUID)

/-- In the words of the specification: the state requirement of an entry is met by a
candidate when the entry is of the dead type and the candidate is a corpse, or the entry
is of the creature type and the candidate is alive. -/
def SpellTargetEntry.requirementMet (e : SpellTargetEntry) (target : Unit) : Bool :=
  (decide (e.type = SpellTargetType.SPELL_TARGET_TYPE_DEAD) && target.corpse)
    || (decide (e.type = SpellTargetType.SPELL_TARGET_TYPE_CREATURE) && target.alive)

/-- In the words of the specification: the override list contains a usable entry for the
candidate's entry whose state requirement is met. -/
def overrideListAccepts (effIndex : Nat) (target : Unit) (bounds : List SpellTargetEntry) :
    Bool :=
  bounds.any (fun e => e.usable effIndex && decide (e.targetEntry = target.entry)
    && e.requirementMet target)

/-! ## Sample values

Concrete worlds and objects on which the theorems below are instantiated. -/

/-- A world with eight vehicle seats per vehicle, a plain seat entry `5`, a hidden one
`6`, a positive assistance radius and an `Attack` that always succeeds. -/
def sampleWorld : World :=
  { MAX_VEHICLE_SEAT := 8
    SEAT_FLAG_NOT_SELECTABLE := 32
    SEAT_FLAG_HIDE_PASSENGER := 512
    sVehicleSeatStore := fun n =>
      if n = 5 then some { m_flags := 0 } else if n = 6 then some { m_flags := 512 } else none
    CONFIG_FLOAT_CREATURE_FAMILY_FLEE_ASSISTANCE_RADIUS := 10
    CONFIG_UINT32_CREATURE_FAMILY_ASSISTANCE_DELAY := 1500
    Attack := fun _ _ _ => true
    SetInPanic := fun _ _ => true
    CREATURE_TYPEFLAGS_MOUNTED_COMBAT := 2048
    CREATURE_EXTRA_FLAG_NO_MELEE := 4
    CONFIG_FLOAT_SIGHT_GUARDER := 50
    GetUnit := fun guid =>
      if guid = 1 then some { guid := 1, typeId := TypeID.TYPEID_PLAYER } else none
    RequestFollowData := fun _ _ => (3, 2) }

/-- The sample world, except that no timed panic can be entered. -/
def sampleWorldNoPanic : World := { sampleWorld with SetInPanic := fun _ _ => false }

/-- A player-controlled enemy. -/
def sampleEnemy : Unit :=
  { guid := 30, typeId := TypeID.TYPEID_PLAYER, playerControlled := true,
    beneficiaryPlayer := some 30 }

/-- A controller of a critter: flagged to flee on melee, neither rooted nor in panic. -/
def sampleCritterAI : CreatureAI := { m_creature := { guid := 4, noMeleeFlee := true } }

/-- An ally search whose only candidate is a creature in the phase of the sample
creature. -/
def sampleSearchWithAlly : AssistSearch Nat :=
  { newCheck := fun _ _ _ => 0
    check := fun range _ => (true, range)
    cells := [[{ guid := 3 }]] }

/-- The seats of the sample vehicle: a plain seat with passenger `20`, a hidden seat with
passenger `21`, no third seat, and a seat `7` without a store entry. -/
def sampleVehicleInfo : VehicleInfo :=
  { m_seatID := [5, 6, 0, 7], passengers := [some 20, some 21, some 22, some 23] }

/-- A vehicle with the sample seats. -/
def sampleVehicle : Unit := { guid := 9, vehicleInfo := some sampleVehicleInfo }

/-- A controller of a living creature that fights unit `2`. -/
def sampleAI : CreatureAI := { m_creature := { guid := 1, victim := some 2 } }

/-- An ally search whose only candidate is in another phase than the sample creature. -/
def sampleSearch : AssistSearch Nat :=
  { newCheck := fun _ _ _ => 0
    check := fun range _ => (true, range)
    cells := [[{ guid := 3, phaseMask := 2 }]] }

/-- A living player with a controller. -/
def samplePlayer : Unit := { guid := 1, typeId := TypeID.TYPEID_PLAYER }

/-- A second living player with a controller. -/
def otherPlayer : Unit := { guid := 3, typeId := TypeID.TYPEID_PLAYER }

/-- A dead player with a controller. -/
def deadPlayer : Unit := { guid := 2, typeId := TypeID.TYPEID_PLAYER, alive := false }

/-- A spell world without target-entry overrides where every candidate is in range, in
sight, attackable and not immune, and every new holder is accepted. -/
def sampleSpellWorld : SpellWorld :=
  { sSpellScriptTargetStorage := fun _ => []
    GetDistance := fun _ _ => 4
    CanAssistSpell := fun _ _ _ => true
    CanAttackSpell := fun _ _ _ => true
    IsImmuneToSpell := fun _ _ _ _ => false
    IsImmuneToSpellEffect := fun _ _ _ => false
    IsWithinLOSInMap := fun _ _ => true
    AddSpellAuraHolder := fun _ _ => true }

/-- A hostile area effect of spell `777`, effect index `1`, with 9000 ms left. -/
def sampleUpdater : DynamicObjectUpdater :=
  { i_dynobject :=
      { caster := { guid := 50 }, spellInfo := { Id := 777 }, effIndex := 1, radius := 3,
        duration := 9000 }
    i_check := 50
    i_positive := false
    i_script := false }

/-- The same area effect with 12000 ms left and the sample target already affected. -/
def sampleUpdaterLater : DynamicObjectUpdater :=
  { i_dynobject :=
      { caster := { guid := 50 }, spellInfo := { Id := 777 }, effIndex := 1, radius := 3,
        duration := 12000, affected := [60] }
    i_check := 50
    i_positive := false
    i_script := false }

/-- The sample spell world, except that every spell has the override list made of a
dead-type entry and a creature-type entry, both for the creature entry `5`. -/
def sampleSpellWorldScripted : SpellWorld :=
  { sampleSpellWorld with
    sSpellScriptTargetStorage := fun _ =>
      [{ type := SpellTargetType.SPELL_TARGET_TYPE_DEAD, targetEntry := 5 },
       { type := SpellTargetType.SPELL_TARGET_TYPE_CREATURE, targetEntry := 5 }] }

/-- A living creature of entry `5`. -/
def sampleScriptTarget : Unit := { guid := 61, entry := 5 }

/-- A player in game-master mode who owns the caster of the sample area effect. -/
def sampleGameMaster : Unit :=
  { guid := 70, typeId := TypeID.TYPEID_PLAYER, gameMaster := true }

/-- A living creature without any aura holder. -/
def sampleTarget : Unit := { guid := 60 }

/-- A living creature in phase `2`; the sample area effect is in phase `1`. -/
def outOfPhaseTarget : Unit := { guid := 62, phaseMask := 2 }

/-- The sample spell world, except that every candidate is at squared distance `16` from
the anchor. -/
def sampleSpellWorldFar : SpellWorld := { sampleSpellWorld with GetDistance := fun _ _ => 16 }

/-- A living player-controlled player with a combat reach of `2`. -/
def samplePlayerTarget : Unit :=
  { guid := 63, typeId := TypeID.TYPEID_PLAYER, playerControlled := true, combatReach := 2 }

/-- Three passes of the sample area effect over the sample target. -/
def samplePasses : List (SpellWorld × Unit) :=
  [(sampleSpellWorld, sampleTarget), (sampleSpellWorld, sampleTarget),
   (sampleSpellWorld, sampleTarget)]

/-! ## Theorems: behaviour controller -/

/-- C1: on an unkillable creature whose death-prevented flag is clear, two successive
`DamageTaken` calls with lethal damage of a type other than instant-kill invoke
`JustPreventedDeath` exactly once in total: the first call invokes it and sets the flag,
the second call (whatever the health and the dealer then are) invokes nothing. -/
theorem DamageTaken_prevents_death_once (ai : CreatureAI) (creature2 : Unit)
    (dealer1 dealer2 : Option ObjectGuid) (damage1 damage2 : Nat)
    (type1 type2 : DamageEffectType)
    (hflag1 : ai.m_creature.unkillable = true) (hclear : ai.m_deathPrevented = false)
    (hlethal1 : ai.m_creature.health ≤ damage1) (htype1 : type1 ≠ DamageEffectType.INSTAKILL)
    (hflag2 : creature2.unkillable = true) (hlethal2 : creature2.health ≤ damage2)
    (htype2 : type2 ≠ DamageEffectType.INSTAKILL) :
    (ai.DamageTaken dealer1 damage1 type1).trace = ai.trace ++ [Call.JustPreventedDeath dealer1]
    ∧ (ai.DamageTaken dealer1 damage1 type1).m_deathPrevented = true
    ∧ CreatureAI.DamageTaken { ai.DamageTaken dealer1 damage1 type1 with m_creature := creature2 }
        dealer2 damage2 type2
      = { ai.DamageTaken dealer1 damage1 type1 with m_creature := creature2 }
    ∧ (CreatureAI.DamageTaken
        { ai.DamageTaken dealer1 damage1 type1 with m_creature := creature2 }
        dealer2 damage2 type2).trace = ai.trace ++ [Call.JustPreventedDeath dealer1] := by
  have h1 : ai.DamageTaken dealer1 damage1 type1
      = ({ ai with m_deathPrevented := true }).call (Call.JustPreventedDeath dealer1) := by
    simp [CreatureAI.DamageTaken, hflag1, hclear, hlethal1, htype1]
  rw [h1]
  simp [CreatureAI.DamageTaken, CreatureAI.call, hflag2, hlethal2, htype2]

/-- Witness for C1: a creature of 5 health points hit for 7 and then for 9. -/
theorem DamageTaken_prevents_death_once_witness :
    (CreatureAI.DamageTaken
      { CreatureAI.DamageTaken { m_creature := { guid := 1, unkillable := true, health := 5 } }
          (some 2) 7 (DamageEffectType.OTHER_DAMAGE 0) with
        m_creature := { guid := 1, unkillable := true, health := 5 } }
      (some 3) 9 (DamageEffectType.OTHER_DAMAGE 1)).trace
      = [] ++ [Call.JustPreventedDeath (some 2)] :=
  (DamageTaken_prevents_death_once
    { m_creature := { guid := 1, unkillable := true, health := 5 } }
    { guid := 1, unkillable := true, health := 5 } (some 2) (some 3) 7 9
    (DamageEffectType.OTHER_DAMAGE 0) (DamageEffectType.OTHER_DAMAGE 1)
    rfl rfl (by decide) (by decide) rfl (by decide) (by decide)).2.2.2

/-- C5: `DoRetreat` returns false and leaves the controller as it was (order,
combat-script status and trace of movement orders included) when the creature has no
victim, when the configured assistance radius is not positive, and when the ally search
finds no creature. -/
theorem DoRetreat_fails_without_effect {χ : Type} (w : World) (g : AssistSearch χ)
    (ai : CreatureAI)
    (h : ai.m_creature.victim = none
      ∨ w.CONFIG_FLOAT_CREATURE_FAMILY_FLEE_ASSISTANCE_RADIUS ≤ 0
      ∨ ∀ victim, ai.m_creature.victim = some victim →
          ai.findAlly g victim w.CONFIG_FLOAT_CREATURE_FAMILY_FLEE_ASSISTANCE_RADIUS = none) :
    ai.DoRetreat w g = (false, ai) := by
  unfold CreatureAI.DoRetreat
  cases hv : ai.m_creature.victim with
  | none => rfl
  | some victim =>
    rcases h with h | h | h
    · rw [hv] at h; cases h
    · simp [h]
    · simp only [h victim hv]
      split <;> rfl

/-- Witness for C5: the only candidate of the search is in another phase, so no ally is
found and `DoRetreat` fails without effect. -/
theorem DoRetreat_fails_without_effect_witness :
    sampleAI.findAlly sampleSearch 2 10 = none
    ∧ sampleAI.DoRetreat sampleWorld sampleSearch = (false, sampleAI) :=
  ⟨by decide,
    DoRetreat_fails_without_effect sampleWorld sampleSearch sampleAI
      (Or.inr (Or.inr (fun victim hv => by
        obtain rfl : 2 = victim := Option.some.inj hv
        decide)))⟩

/-- C6: with the order critter-flee and the creature alive, `TimedFleeingEnded` sets the
combat-script status to false and invokes `EnterEvadeMode` (once, after the base-class
handler). -/
theorem TimedFleeingEnded_critter_flee (flag : Nat) (ai : CreatureAI)
    (horder : ai.m_currentAIOrder = AIOrders.ORDER_CRITTER_FLEE)
    (halive : ai.m_creature.alive = true) :
    (ai.TimedFleeingEnded flag).m_combatScriptHappening = false
    ∧ (ai.TimedFleeingEnded flag).trace
        = ai.trace ++ [Call.UnitAI_TimedFleeingEnded, Call.EnterEvadeMode] := by
  simp [CreatureAI.TimedFleeingEnded, CreatureAI.call, CreatureAI.GetAIOrder,
    CreatureAI.SetAIOrder, CreatureAI.SetCombatScriptStatus, horder, halive]

/-- Witness for C6: a living creature in critter flee. -/
theorem TimedFleeingEnded_critter_flee_witness :
    (CreatureAI.TimedFleeingEnded 64
      { m_creature := { guid := 1 }, m_currentAIOrder := AIOrders.ORDER_CRITTER_FLEE,
        m_combatScriptHappening := true }).m_combatScriptHappening = false :=
  (TimedFleeingEnded_critter_flee 64
    { m_creature := { guid := 1 }, m_currentAIOrder := AIOrders.ORDER_CRITTER_FLEE,
      m_combatScriptHappening := true } rfl rfl).1

/-- C7: whatever the starting order and the creature, the order is none after
`TimedFleeingEnded`; and when the starting order is already none the call does nothing
but run the base-class handler: no evade, combat-script status untouched. -/
theorem TimedFleeingEnded_resets_order (flag : Nat) (ai : CreatureAI) :
    (ai.TimedFleeingEnded flag).m_currentAIOrder = AIOrders.ORDER_NONE
    ∧ (ai.m_currentAIOrder = AIOrders.ORDER_NONE →
        ai.TimedFleeingEnded flag = ai.call Call.UnitAI_TimedFleeingEnded) := by
  refine ⟨by simp [CreatureAI.TimedFleeingEnded, CreatureAI.SetAIOrder], ?_⟩
  intro h
  cases ai
  simp only at h
  subst h
  simp [CreatureAI.TimedFleeingEnded, CreatureAI.call, CreatureAI.GetAIOrder,
    CreatureAI.SetAIOrder]

/-- Witness for C7: a controller whose order is already none. -/
theorem TimedFleeingEnded_resets_order_witness :
    CreatureAI.TimedFleeingEnded 64 sampleAI = sampleAI.call Call.UnitAI_TimedFleeingEnded :=
  (TimedFleeingEnded_resets_order 64 sampleAI).2 rfl

/-- C9: `RetreatingEnded` invoked while the order is not retreating changes nothing
(order, combat-script status and trace are those of before); hence a second
`RetreatingEnded` right after a first one is a no-op. -/
theorem RetreatingEnded_guard (ai : CreatureAI) :
    (ai.m_currentAIOrder ≠ AIOrders.ORDER_RETREATING → ai.RetreatingEnded = ai)
    ∧ ai.RetreatingEnded.RetreatingEnded = ai.RetreatingEnded := by
  have guard : ∀ a : CreatureAI, a.m_currentAIOrder ≠ AIOrders.ORDER_RETREATING →
      a.RetreatingEnded = a := by
    intro a h
    simp [CreatureAI.RetreatingEnded, CreatureAI.GetAIOrder, h]
  refine ⟨guard ai, ?_⟩
  by_cases h : ai.m_currentAIOrder = AIOrders.ORDER_RETREATING
  · apply guard
    unfold CreatureAI.RetreatingEnded
    simp only [CreatureAI.GetAIOrder, h, ne_eq, not_true_eq_false, if_false]
    split <;> simp [CreatureAI.SetAIOrder, CreatureAI.SetCombatScriptStatus, CreatureAI.call]
  · rw [guard ai h, guard ai h]

/-- Witness for C9: a controller in critter flee is not touched by `RetreatingEnded`. -/
theorem RetreatingEnded_guard_witness :
    CreatureAI.RetreatingEnded
      { m_creature := { guid := 1 }, m_currentAIOrder := AIOrders.ORDER_CRITTER_FLEE }
      = { m_creature := { guid := 1 }, m_currentAIOrder := AIOrders.ORDER_CRITTER_FLEE } :=
  (RetreatingEnded_guard
    { m_creature := { guid := 1 }, m_currentAIOrder := AIOrders.ORDER_CRITTER_FLEE }).1
    (by decide)

/-- C10: `AttackStart` does nothing at all (no `Attack`, no combat, threat, spell,
movement or passenger call, no state change) when `who` is null or the react state is
passive. -/
theorem AttackStart_null_or_passive (w : World) (ai : CreatureAI) (who : Option Unit)
    (h : who = none ∨ ai.m_reactState = ReactStates.REACT_PASSIVE) :
    ai.AttackStart w who = ai := by
  cases who with
  | none => rfl
  | some u =>
    rcases h with h | h
    · cases h
    · simp [CreatureAI.AttackStart, CreatureAI.HasReactState, h]

/-- Witness for C10: a passive controller given the sample vehicle. -/
theorem AttackStart_null_or_passive_witness :
    CreatureAI.AttackStart sampleWorld
      { m_creature := { guid := 1 }, m_reactState := ReactStates.REACT_PASSIVE }
      (some sampleVehicle)
      = { m_creature := { guid := 1 }, m_reactState := ReactStates.REACT_PASSIVE } :=
  AttackStart_null_or_passive sampleWorld
    { m_creature := { guid := 1 }, m_reactState := ReactStates.REACT_PASSIVE }
    (some sampleVehicle) (Or.inr rfl)

/-- One iteration of the seat loop only appends its calls. -/
theorem attackSeat_eq (w : World) (info : VehicleInfo) (ai : CreatureAI) (i : Nat) :
    CreatureAI.attackSeat w info ai i
      = { ai with trace := ai.trace ++ seatCalls w info ai.m_creature.guid i } := by
  unfold CreatureAI.attackSeat seatCalls
  by_cases h0 : info.seatID i = 0
  · simp [h0]
  · simp only [h0, if_false]
    cases info.GetPassenger i with
    | none => simp
    | some passenger =>
      cases w.sVehicleSeatStore (info.seatID i) with
      | none => simp
      | some seatEntry =>
        simp only
        split <;> simp [CreatureAI.call]

/-- The seat loop only appends the calls of its iterations, in order. -/
theorem attackSeat_foldl (w : World) (info : VehicleInfo) (l : List Nat) (ai : CreatureAI) :
    l.foldl (CreatureAI.attackSeat w info) ai
      = { ai with trace := ai.trace ++ l.flatMap (seatCalls w info ai.m_creature.guid) } := by
  induction l generalizing ai with
  | nil => simp
  | cons i rest ih =>
    rw [List.foldl_cons, ih, attackSeat_eq]
    simp [List.flatMap_cons, List.append_assoc]

/-- The calls `AttackStart` makes on a vehicle it may attack. -/
theorem AttackStart_vehicle_calls (w : World) (ai : CreatureAI) (who : Unit) (info : VehicleInfo)
    (hreact : ai.m_reactState ≠ ReactStates.REACT_PASSIVE)
    (hattack : w.Attack ai.m_creature who ai.m_meleeEnabled = true)
    (hvehicle : who.vehicleInfo = some info) :
    ai.callsSince (ai.AttackStart w (some who))
      = [Call.Attack who.guid ai.m_meleeEnabled, Call.EngageInCombatWith who.guid]
        ++ (if ai.m_creature.civilian then [Call.CastSpell ai.m_creature.guid 43783] else [])
        ++ [Call.HandleMovementOnAttackStart who.guid
              (ai.m_creature.victim.isSome && decide (ai.m_creature.victim ≠ some who.guid))]
        ++ (List.range w.MAX_VEHICLE_SEAT).flatMap (seatCalls w info ai.m_creature.guid) := by
  unfold CreatureAI.AttackStart CreatureAI.callsSince
  simp only [CreatureAI.HasReactState, hreact, decide_False, Bool.false_eq_true, if_false,
    hattack, if_true, Unit.IsVehicle, hvehicle, Option.isSome_some,
    CreatureAI.AttackPassengersIfCan, attackSeat_foldl]
  cases hc : ai.m_creature.civilian <;> simp [CreatureAI.call, hc]

/-- What a call of one seat iteration says about the seat: the call names the passenger
of a seat that has an id, an entry, and neither excluding flag. -/
theorem seatCalls_mem (w : World) (info : VehicleInfo) (self : ObjectGuid) (i : Nat) (c : Call)
    (hc : c ∈ seatCalls w info self i) :
    ∃ passenger seatEntry, info.seatID i ≠ 0 ∧ info.GetPassenger i = some passenger
      ∧ w.sVehicleSeatStore (info.seatID i) = some seatEntry
      ∧ seatEntry.m_flags &&& w.SEAT_FLAG_NOT_SELECTABLE = 0
      ∧ seatEntry.m_flags &&& w.SEAT_FLAG_HIDE_PASSENGER = 0
      ∧ (c = Call.AddThreat passenger ∨ c = Call.SetInCombatWith self passenger
          ∨ c = Call.SetInCombatWith passenger self) := by
  unfold seatCalls at hc
  by_cases h0 : info.seatID i = 0
  · simp [h0] at hc
  · simp only [h0, if_false] at hc
    cases hp : info.GetPassenger i with
    | none => simp [hp] at hc
    | some passenger =>
      cases he : w.sVehicleSeatStore (info.seatID i) with
      | none => simp [hp, he] at hc
      | some seatEntry =>
        simp only [hp, he] at hc
        by_cases h1 : seatEntry.m_flags &&& w.SEAT_FLAG_NOT_SELECTABLE = 0
        · by_cases h2 : seatEntry.m_flags &&& w.SEAT_FLAG_HIDE_PASSENGER = 0
          · refine ⟨passenger, seatEntry, h0, rfl, rfl, h1, h2, ?_⟩
            simpa [h1, h2] using hc
          · simp [h2] at hc
        · simp [h1] at hc

/-- C8: when `AttackStart` is given a vehicle that `Attack` accepts, every seat index
below `MAX_VEHICLE_SEAT` with a non-zero seat id, a passenger and a seat entry carrying
neither the not-selectable nor the hide-passenger flag has its passenger added to the
threat list and set in combat with the attacker in both directions; and a passenger
whose seats are all flagged hide-passenger or not-selectable is not added to the threat
list and gets no in-combat call. -/
theorem AttackStart_vehicle_passengers (w : World) (ai : CreatureAI) (who : Unit)
    (info : VehicleInfo)
    (hreact : ai.m_reactState ≠ ReactStates.REACT_PASSIVE)
    (hattack : w.Attack ai.m_creature who ai.m_meleeEnabled = true)
    (hvehicle : who.vehicleInfo = some info) :
    (∀ i passenger seatEntry, i < w.MAX_VEHICLE_SEAT → info.seatID i ≠ 0 →
        info.GetPassenger i = some passenger →
        w.sVehicleSeatStore (info.seatID i) = some seatEntry →
        seatEntry.m_flags &&& w.SEAT_FLAG_NOT_SELECTABLE = 0 →
        seatEntry.m_flags &&& w.SEAT_FLAG_HIDE_PASSENGER = 0 →
        Call.AddThreat passenger ∈ ai.callsSince (ai.AttackStart w (some who))
        ∧ Call.SetInCombatWith ai.m_creature.guid passenger
            ∈ ai.callsSince (ai.AttackStart w (some who))
        ∧ Call.SetInCombatWith passenger ai.m_creature.guid
            ∈ ai.callsSince (ai.AttackStart w (some who)))
    ∧ (∀ passenger,
        (∀ i seatEntry, i < w.MAX_VEHICLE_SEAT → info.GetPassenger i = some passenger →
          w.sVehicleSeatStore (info.seatID i) = some seatEntry →
          seatEntry.m_flags &&& w.SEAT_FLAG_NOT_SELECTABLE ≠ 0
            ∨ seatEntry.m_flags &&& w.SEAT_FLAG_HIDE_PASSENGER ≠ 0) →
        Call.AddThreat passenger ∉ ai.callsSince (ai.AttackStart w (some who))
        ∧ Call.SetInCombatWith ai.m_creature.guid passenger
            ∉ ai.callsSince (ai.AttackStart w (some who))
        ∧ Call.SetInCombatWith passenger ai.m_creature.guid
            ∉ ai.callsSince (ai.AttackStart w (some who))) := by
  rw [AttackStart_vehicle_calls w ai who info hreact hattack hvehicle]
  constructor
  · intro i passenger seatEntry hi h0 hp he h1 h2
    have hs : seatCalls w info ai.m_creature.guid i
        = [Call.AddThreat passenger, Call.SetInCombatWith ai.m_creature.guid passenger,
            Call.SetInCombatWith passenger ai.m_creature.guid] := by
      simp [seatCalls, h0, hp, he, h1, h2]
    have hmem : ∀ c ∈ seatCalls w info ai.m_creature.guid i,
        c ∈ (List.range w.MAX_VEHICLE_SEAT).flatMap (seatCalls w info ai.m_creature.guid) :=
      fun c hc => List.mem_flatMap.mpr ⟨i, List.mem_range.mpr hi, hc⟩
    rw [hs] at hmem
    refine ⟨?_, ?_, ?_⟩ <;> apply List.mem_append_right <;> apply hmem <;> simp
  · intro passenger hflag
    have hno : ∀ c, (c = Call.AddThreat passenger
          ∨ c = Call.SetInCombatWith ai.m_creature.guid passenger
          ∨ c = Call.SetInCombatWith passenger ai.m_creature.guid) →
        c ∉ (List.range w.MAX_VEHICLE_SEAT).flatMap (seatCalls w info ai.m_creature.guid) := by
      intro c hc hmem
      obtain ⟨i, hi, hci⟩ := List.mem_flatMap.mp hmem
      obtain ⟨q, seatEntry, _, hq, he, h1, h2, hcq⟩ :=
        seatCalls_mem w info ai.m_creature.guid i c hci
      have hqp : q = passenger := by
        rcases hc with hc | hc | hc <;> rcases hcq with hcq | hcq | hcq <;>
          rw [hc] at hcq <;> simp at hcq
        · exact hcq.symm
        · exact hcq.symm
        · exact hcq.1.symm.trans hcq.2.symm
        · exact hcq.2.symm.trans hcq.1.symm
        · exact hcq.symm
      rw [hqp] at hq
      rcases hflag i seatEntry (List.mem_range.mp hi) hq he with h | h
      · exact h h1
      · exact h h2
    refine ⟨?_, ?_, ?_⟩
    · intro hmem
      refine hno _ (Or.inl rfl) ?_
      cases hc : ai.m_creature.civilian <;> simpa [hc] using hmem
    · intro hmem
      refine hno _ (Or.inr (Or.inl rfl)) ?_
      cases hc : ai.m_creature.civilian <;> simpa [hc] using hmem
    · intro hmem
      refine hno _ (Or.inr (Or.inr rfl)) ?_
      cases hc : ai.m_creature.civilian <;> simpa [hc] using hmem

/-- Witness for C8: on the sample vehicle the passenger `20` of the plain seat is
engaged and the passenger `21` of the hidden seat is not. -/
theorem AttackStart_vehicle_passengers_witness :
    Call.AddThreat 20 ∈ sampleAI.callsSince (sampleAI.AttackStart sampleWorld (some sampleVehicle))
    ∧ Call.AddThreat 21
        ∉ sampleAI.callsSince (sampleAI.AttackStart sampleWorld (some sampleVehicle)) :=
  ⟨((AttackStart_vehicle_passengers sampleWorld sampleAI sampleVehicle sampleVehicleInfo
      (by decide) rfl rfl).1 0 20 { m_flags := 0 } (by decide) (by decide) rfl rfl
      (by decide) (by decide)).1,
    ((AttackStart_vehicle_passengers sampleWorld sampleAI sampleVehicle sampleVehicleInfo
      (by decide) rfl rfl).2 21 (by
        intro i seatEntry hi hp he
        have hi8 : i < 8 := hi
        interval_cases i <;> simp_all [sampleWorld, sampleVehicleInfo, VehicleInfo.GetPassenger,
          VehicleInfo.seatID]
        subst he
        decide)).1⟩

/-! ## Theorems: area-effect updater -/

/-- A lookup that fails on a list finds the element appended to it. -/
theorem find_append_single (p : SpellAuraHolder → Bool) (l : List SpellAuraHolder)
    (x : SpellAuraHolder) (hl : l.find? p = none) (hx : p x = true) :
    (l ++ [x]).find? p = some x := by
  induction l with
  | nil => simp [hx]
  | cons a rest ih =>
    by_cases ha : p a = true
    · simp [List.find?_cons, ha] at hl
    · simp only [Bool.not_eq_true] at ha
      simp only [List.find?_cons, ha] at hl
      simp [List.find?_cons, ha, ih hl]

/-- A write through the lookup reaches the appended element when nothing before it
matches. -/
theorem updateHolder_append_single (spellId : Nat) (casterGuid : ObjectGuid)
    (f : SpellAuraHolder → SpellAuraHolder) (l : List SpellAuraHolder) (x : SpellAuraHolder)
    (hl : l.find? (SpellAuraHolder.isFor spellId casterGuid) = none)
    (hx : SpellAuraHolder.isFor spellId casterGuid x = true) :
    updateHolder spellId casterGuid f (l ++ [x]) = l ++ [f x] := by
  induction l with
  | nil => simp [updateHolder, hx]
  | cons a rest ih =>
    by_cases ha : SpellAuraHolder.isFor spellId casterGuid a = true
    · simp [List.find?_cons, ha] at hl
    · simp only [Bool.not_eq_true] at ha
      simp only [List.find?_cons, ha] at hl
      simp [updateHolder, ha, ih hl]

/-- The holders for a spell and caster, after one is appended to a list without any. -/
theorem filter_append_single (p : SpellAuraHolder → Bool) (l : List SpellAuraHolder)
    (x : SpellAuraHolder) (hl : l.find? p = none) (hx : p x = true) :
    (l ++ [x]).filter p = [x] := by
  induction l with
  | nil => simp [hx]
  | cons a rest ih =>
    by_cases ha : p a = true
    · simp [List.find?_cons, ha] at hl
    · simp only [Bool.not_eq_true] at ha
      simp only [List.find?_cons, ha] at hl
      simpa [List.filter_cons, ha] using ih hl

/-- The targeting stage leaves the updater as it was, up to one relationship-rule
consultation appended to its calls. -/
theorem targeting_cases (w : SpellWorld) (u : DynamicObjectUpdater) (target : Unit) :
    (u.targeting w target).1 = u
    ∨ (u.targeting w target).1
        = { u with calls := u.calls ++ [AuraCall.CanAssistSpell target.guid] }
    ∨ (u.targeting w target).1
        = { u with calls := u.calls ++ [AuraCall.CanAttackSpell target.guid] } := by
  by_cases hb : w.sSpellScriptTargetStorage u.i_dynobject.spellInfo.Id = []
  · by_cases hs : u.i_script = true
    · left; simp [DynamicObjectUpdater.targeting, hb, hs]
    · by_cases hp : u.i_positive = true
      · right; left; simp [DynamicObjectUpdater.targeting, hb, hs, hp]
      · right; right; simp [DynamicObjectUpdater.targeting, hb, hs, hp]
  · left; simp [DynamicObjectUpdater.targeting, hb]

/-- The targeting stage only appends relationship-rule consultations to the calls. -/
theorem targeting_frame (w : SpellWorld) (u : DynamicObjectUpdater) (target : Unit) :
    (u.targeting w target).1.i_dynobject = u.i_dynobject
    ∧ ∃ consulted, (u.targeting w target).1.calls = u.calls ++ consulted
      ∧ ∀ c ∈ consulted, c = AuraCall.CanAssistSpell target.guid
          ∨ c = AuraCall.CanAttackSpell target.guid := by
  rcases targeting_cases w u target with h | h | h <;> rw [h]
  · exact ⟨rfl, [], by simp, by simp⟩
  · exact ⟨rfl, [AuraCall.CanAssistSpell target.guid], rfl, by simp⟩
  · exact ⟨rfl, [AuraCall.CanAttackSpell target.guid], rfl, by simp⟩

/-- An eligible candidate reaches the application stage. -/
theorem VisitHelper_of_eligible (w : SpellWorld) (u : DynamicObjectUpdater) (target : Unit)
    (h : u.eligible w target = true) :
    u.VisitHelper w target = (u.targeting w target).1.apply w target := by
  have hsame : (u.targeting w target).1.passesSpellChecks w target
      = u.passesSpellChecks w target := by
    rcases targeting_cases w u target with h | h | h <;> rw [h] <;> rfl
  simp only [DynamicObjectUpdater.eligible, Bool.and_eq_true] at h
  simp [DynamicObjectUpdater.VisitHelper, h.1.1, h.1.2, hsame, h.2]

/-- The application stage on a target without a holder for the caster and spell, when the
new holder is accepted: the holder is appended with the anchor's duration and one aura. -/
theorem apply_creates (w : SpellWorld) (u : DynamicObjectUpdater) (target : Unit)
    (hnone : target.GetSpellAuraHolder u.i_dynobject.spellInfo.Id u.i_dynobject.GetCasterGuid
      = none)
    (hadd : w.AddSpellAuraHolder target
      { spellId := u.i_dynobject.spellInfo.Id, casterGuid := u.i_dynobject.GetCasterGuid,
        duration := (u.i_dynobject.duration : Int), auras := [u.i_dynobject.effIndex] } = true) :
    (u.apply w target).2.holders = target.holders ++
      [{ spellId := u.i_dynobject.spellInfo.Id, casterGuid := u.i_dynobject.GetCasterGuid,
         duration := (u.i_dynobject.duration : Int), auras := [u.i_dynobject.effIndex] }] := by
  have hadd2 : w.AddSpellAuraHolder target
      (SpellAuraHolder.AddAura
        (SpellAuraHolder.SetAuraDuration
          { spellId := u.i_dynobject.spellInfo.Id, casterGuid := u.i_dynobject.caster.guid,
            duration := 0 } u.i_dynobject.duration) u.i_dynobject.effIndex) = true := by
    simpa [SpellAuraHolder.SetAuraDuration, SpellAuraHolder.AddAura,
      DynamicObject.GetCasterGuid] using hadd
  unfold DynamicObjectUpdater.apply
  simp only [hnone, hadd2, Bool.not_true, Bool.false_eq_true, if_false]
  split <;> simp [SpellAuraHolder.SetAuraDuration, SpellAuraHolder.AddAura,
    DynamicObject.GetCasterGuid]

/-- The application stage on a target whose holder for the caster and spell already has
the aura of the effect index: nothing is created, and the holder's duration becomes the
anchor's exactly when it is non-negative and below it. -/
theorem apply_refreshes (w : SpellWorld) (u : DynamicObjectUpdater) (target : Unit)
    (holder : SpellAuraHolder)
    (hsome : target.GetSpellAuraHolder u.i_dynobject.spellInfo.Id u.i_dynobject.GetCasterGuid
      = some holder)
    (haura : u.i_dynobject.effIndex ∈ holder.auras) :
    (u.apply w target).2
        = (if 0 ≤ holder.duration ∧ holder.duration.toNat < u.i_dynobject.duration then
            { target with
              holders := updateHolder u.i_dynobject.spellInfo.Id u.i_dynobject.GetCasterGuid
                (SpellAuraHolder.SetAuraDuration · u.i_dynobject.duration) target.holders }
          else target)
    ∧ ∃ made, (u.apply w target).1.calls = u.calls ++ made
      ∧ ∀ c ∈ made, c = AuraCall.SendAuraUpdate target.guid
          ∨ c = AuraCall.CasterHitTargetWithSpell target.guid := by
  unfold DynamicObjectUpdater.apply
  simp only [hsome, SpellAuraHolder.GetAuraByEffectIndex, haura, decide_True, Bool.not_true,
    Bool.false_eq_true, if_false, Bool.and_eq_true, decide_eq_true_eq]
  by_cases hd : 0 ≤ holder.duration ∧ holder.duration.toNat < u.i_dynobject.duration
  · simp only [hd, and_self, if_true]
    split
    · exact ⟨rfl, [AuraCall.SendAuraUpdate target.guid,
        AuraCall.CasterHitTargetWithSpell target.guid], by simp, by simp⟩
    · exact ⟨rfl, [AuraCall.SendAuraUpdate target.guid], by simp, by simp⟩
  · simp only [hd, if_false]
    split
    · exact ⟨rfl, [AuraCall.CasterHitTargetWithSpell target.guid], by simp, by simp⟩
    · exact ⟨rfl, [], by simp, by simp⟩

/-- C2: a target without a holder for the caster and spell is visited twice by
`VisitHelper` for the same caster, spell and effect index, eligible both times, the
holder of the first run accepted by `AddSpellAuraHolder`. After the second run the target
has exactly one holder for that caster and spell, with exactly one aura at the effect
index; the second run creates no holder and no aura; it leaves the target untouched unless
the second anchor duration is strictly greater than the holder's (the first anchor
duration), in which case the holder's duration becomes the second anchor duration. -/
theorem VisitHelper_twice_one_holder (w : SpellWorld) (u u2 : DynamicObjectUpdater)
    (target target2 : Unit)
    (helig1 : u.eligible w target = true)
    (hnone : target.GetSpellAuraHolder u.i_dynobject.spellInfo.Id u.i_dynobject.GetCasterGuid
      = none)
    (hadd : w.AddSpellAuraHolder target
      { spellId := u.i_dynobject.spellInfo.Id, casterGuid := u.i_dynobject.GetCasterGuid,
        duration := (u.i_dynobject.duration : Int), auras := [u.i_dynobject.effIndex] } = true)
    (hcaster : u2.i_dynobject.GetCasterGuid = u.i_dynobject.GetCasterGuid)
    (hspell : u2.i_dynobject.spellInfo.Id = u.i_dynobject.spellInfo.Id)
    (heff : u2.i_dynobject.effIndex = u.i_dynobject.effIndex)
    (hholders : target2.holders = (u.VisitHelper w target).2.holders)
    (helig2 : u2.eligible w target2 = true) :
    (∃ holder,
        (u2.VisitHelper w target2).2.holdersFor u.i_dynobject.spellInfo.Id
          u.i_dynobject.GetCasterGuid = [holder]
        ∧ holder.auras.count u.i_dynobject.effIndex = 1
        ∧ holder.duration
            = (if u.i_dynobject.duration < u2.i_dynobject.duration then
                (u2.i_dynobject.duration : Int) else (u.i_dynobject.duration : Int)))
    ∧ (u2.VisitHelper w target2).2.holders.length = target2.holders.length
    ∧ (∀ t e, AuraCall.CreateSpellAuraHolder t ∉ u2.callsSince (u2.VisitHelper w target2).1
        ∧ AuraCall.NewPersistentAreaAura t e ∉ u2.callsSince (u2.VisitHelper w target2).1
        ∧ AuraCall.AddSpellAuraHolder t ∉ u2.callsSince (u2.VisitHelper w target2).1)
    ∧ (u2.i_dynobject.duration ≤ u.i_dynobject.duration →
        (u2.VisitHelper w target2).2 = target2) := by
  -- the first run appends the holder
  have hfirst : (u.VisitHelper w target).2.holders = target.holders ++
      [{ spellId := u.i_dynobject.spellInfo.Id, casterGuid := u.i_dynobject.GetCasterGuid,
         duration := (u.i_dynobject.duration : Int), auras := [u.i_dynobject.effIndex] }] := by
    rw [VisitHelper_of_eligible w u target helig1]
    have hframe := (targeting_frame w u target).1
    have := apply_creates w (u.targeting w target).1 target (by rw [hframe]; exact hnone)
      (by rw [hframe]; exact hadd)
    rw [hframe] at this
    exact this
  rw [hfirst] at hholders
  have hfor : SpellAuraHolder.isFor u.i_dynobject.spellInfo.Id u.i_dynobject.GetCasterGuid
      { spellId := u.i_dynobject.spellInfo.Id, casterGuid := u.i_dynobject.GetCasterGuid,
        duration := (u.i_dynobject.duration : Int), auras := [u.i_dynobject.effIndex] } = true := by
    simp [SpellAuraHolder.isFor]
  have hnone2 : target.holders.find?
      (SpellAuraHolder.isFor u.i_dynobject.spellInfo.Id u.i_dynobject.GetCasterGuid) = none :=
    hnone
  -- the second run finds it
  have hframe2 := (targeting_frame w u2 target2).1
  obtain ⟨consulted, hcons, hconsulted⟩ := (targeting_frame w u2 target2).2
  have hsome : target2.GetSpellAuraHolder (u2.targeting w target2).1.i_dynobject.spellInfo.Id
      (u2.targeting w target2).1.i_dynobject.GetCasterGuid
      = some { spellId := u.i_dynobject.spellInfo.Id, casterGuid := u.i_dynobject.GetCasterGuid,
               duration := (u.i_dynobject.duration : Int),
               auras := [u.i_dynobject.effIndex] } := by
    rw [hframe2, hspell, hcaster]
    unfold Unit.GetSpellAuraHolder
    rw [hholders]
    exact find_append_single _ _ _ hnone2 hfor
  obtain ⟨hres, made, hmade, hmadeonly⟩ :=
    apply_refreshes w (u2.targeting w target2).1 target2 _ hsome
      (by rw [hframe2, heff]; simp)
  rw [VisitHelper_of_eligible w u2 target2 helig2]
  rw [hframe2, hspell, hcaster] at hres
  simp only [Int.toNat_ofNat, Int.ofNat_zero_le, true_and] at hres
  have hupd := updateHolder_append_single u.i_dynobject.spellInfo.Id
    u.i_dynobject.GetCasterGuid (SpellAuraHolder.SetAuraDuration · u2.i_dynobject.duration)
    target.holders _ hnone2 hfor
  refine ⟨?_, ?_, ?_, ?_⟩
  · rw [hres]
    by_cases hd : u.i_dynobject.duration < u2.i_dynobject.duration
    · refine ⟨{ spellId := u.i_dynobject.spellInfo.Id,
                casterGuid := u.i_dynobject.GetCasterGuid,
                duration := (u2.i_dynobject.duration : Int),
                auras := [u.i_dynobject.effIndex] }, ?_, ?_, ?_⟩
      · simp only [hd, if_true, Unit.holdersFor, hholders, hupd]
        exact filter_append_single _ _ _ hnone2
          (by simp [SpellAuraHolder.isFor, SpellAuraHolder.SetAuraDuration])
      · simp
      · simp [hd]
    · refine ⟨{ spellId := u.i_dynobject.spellInfo.Id,
                casterGuid := u.i_dynobject.GetCasterGuid,
                duration := (u.i_dynobject.duration : Int),
                auras := [u.i_dynobject.effIndex] }, ?_, ?_, ?_⟩
      · simp only [hd, if_false, Unit.holdersFor, hholders]
        exact filter_append_single _ _ _ hnone2 hfor
      · simp
      · simp [hd]
  · rw [hres]
    by_cases hd : u.i_dynobject.duration < u2.i_dynobject.duration
    · simp [hd, hholders, hupd]
    · simp [hd]
  · intro t e
    have hcalls : u2.callsSince ((u2.targeting w target2).1.apply w target2).1
        = consulted ++ made := by
      simp [DynamicObjectUpdater.callsSince, hmade, hcons]
    rw [hcalls]
    refine ⟨?_, ?_, ?_⟩ <;> intro hmem <;> rcases List.mem_append.mp hmem with h | h
    all_goals first
      | (rcases hconsulted _ h with h | h <;> cases h)
      | (rcases hmadeonly _ h with h | h <;> cases h)
  · intro hle
    rw [hres]
    simp [Nat.not_lt.mpr hle]

/-- Witness for C2: the sample area effect visits the sample target, and visits it again
with 12000 ms left. -/
theorem VisitHelper_twice_one_holder_witness :
    sampleUpdater.eligible sampleSpellWorld sampleTarget = true
    ∧ (sampleUpdaterLater.VisitHelper sampleSpellWorld
        (sampleUpdater.VisitHelper sampleSpellWorld sampleTarget).2).2.holders.length
      = (sampleUpdater.VisitHelper sampleSpellWorld sampleTarget).2.holders.length :=
  ⟨by decide,
    (VisitHelper_twice_one_holder sampleSpellWorld sampleUpdater sampleUpdaterLater sampleTarget
      (sampleUpdater.VisitHelper sampleSpellWorld sampleTarget).2
      (by decide) (by decide) rfl rfl rfl rfl rfl (by decide)).2.1⟩

/-! ## Theorems: visibility notifier -/

/-- A property of the calls that every completed iteration keeps is kept by a completed
loop. -/
theorem foldlM_keeps {α β : Type} (f : β → α → Option β) (Inv : β → Prop) (l : List α)
    (hstep : ∀ b a b', Inv b → f b a = some b' → Inv b') :
    ∀ b b', Inv b → l.foldlM f b = some b' → Inv b' := by
  induction l with
  | nil =>
    intro b b' hb h
    simp only [List.foldlM_nil, pure, Option.some.injEq] at h
    exact h ▸ hb
  | cons a rest ih =>
    intro b b' hb h
    simp only [List.foldlM_cons, bind, Option.bind_eq_some] at h
    obtain ⟨b1, h1, h2⟩ := h
    exact ih b1 b' (hstep b a b1 hb h1) h2

/-- The worker respects the lost-control and evade gates. -/
theorem worker_gated (IsVisible : Unit → Unit → Bool) (calls calls2 : List Perception)
    (unitA unitB : Unit) (h : UnitVisitObjectsNotifierWorker IsVisible calls unitA unitB = some calls2)
    (hcalls : ∀ c ∈ calls, c.gated = true) : ∀ c ∈ calls2, c.gated = true := by
  unfold UnitVisitObjectsNotifierWorker at h
  by_cases hg : (unitA.lostControl || unitA.evadeMode) = true
  · simp only [hg, if_true, Option.some.injEq] at h
    exact h ▸ hcalls
  · simp only [hg, if_false] at h
    simp only [Bool.or_eq_true, not_or, Bool.not_eq_true] at hg
    by_cases hai : unitA.hasAI = true
    · simp only [hai, Bool.not_true, Bool.false_eq_true, if_false] at h
      by_cases hv : IsVisible unitA unitB = true
      · simp only [hv, Bool.not_true, Bool.false_eq_true, if_false, Option.some.injEq] at h
        subst h
        intro c hc
        rcases List.mem_append.mp hc with hc | hc
        · exact hcalls c hc
        · simp only [List.mem_cons, List.mem_singleton, List.not_mem_nil, or_false] at hc
          rcases hc with hc | hc <;> subst hc <;> simp [Perception.gated, hg.1, hg.2]
      · simp only [hv, Bool.not_false, if_true, Option.some.injEq] at h
        subst h
        intro c hc
        rcases List.mem_append.mp hc with hc | hc
        · exact hcalls c hc
        · simp only [List.mem_singleton] at hc
          subst hc
          rfl
    · simp [hai] at h

/-- The worker respects the alive gate when it is given a living perceiver. -/
theorem worker_byLiving (IsVisible : Unit → Unit → Bool) (calls calls2 : List Perception)
    (unitA unitB : Unit) (halive : unitA.alive = true)
    (h : UnitVisitObjectsNotifierWorker IsVisible calls unitA unitB = some calls2)
    (hcalls : ∀ c ∈ calls, c.byLiving = true) : ∀ c ∈ calls2, c.byLiving = true := by
  unfold UnitVisitObjectsNotifierWorker at h
  split at h
  · simp only [Option.some.injEq] at h
    exact h ▸ hcalls
  · split at h
    · cases h
    · split at h <;> simp only [Option.some.injEq] at h <;> subst h <;> intro c hc <;>
        rcases List.mem_append.mp hc with hc | hc
      · exact hcalls c hc
      · simp only [List.mem_singleton] at hc
        subst hc
        rfl
      · exact hcalls c hc
      · simp only [List.mem_cons, List.mem_singleton, List.not_mem_nil, or_false] at hc
        rcases hc with hc | hc <;> subst hc <;> simp [Perception.byLiving, halive]

/-- In each of the four visibility passes, every `MoveInLineOfSight` of a completed pass
is received by a unit that is neither in lost control nor evading. -/
theorem passes_gated (IsVisible : Unit → Unit → Bool) (self : Unit)
    (calls calls2 : List Perception) (m : List Unit)
    (hcalls : ∀ c ∈ calls, c.gated = true) :
    (PlayerVisitObjectsNotifier.Visit_CreatureMapType IsVisible self calls m = some calls2 →
      ∀ c ∈ calls2, c.gated = true)
    ∧ (PlayerVisitObjectsNotifier.Visit_PlayerMapType IsVisible self calls m = some calls2 →
      ∀ c ∈ calls2, c.gated = true)
    ∧ (CreatureVisitObjectsNotifier.Visit_PlayerMapType IsVisible self calls m = some calls2 →
      ∀ c ∈ calls2, c.gated = true)
    ∧ (CreatureVisitObjectsNotifier.Visit_CreatureMapType IsVisible self calls m = some calls2 →
      ∀ c ∈ calls2, c.gated = true) := by
  refine ⟨?_, ?_, ?_, ?_⟩
  · intro h
    unfold PlayerVisitObjectsNotifier.Visit_CreatureMapType at h
    split at h
    · simp only [Option.some.injEq] at h
      exact h ▸ hcalls
    · refine foldlM_keeps _ (fun l => ∀ c ∈ l, c.gated = true) m ?_ calls calls2 hcalls h
      intro b a b2 hb hstep
      by_cases hskip : (!a.alive) = true
      · simp only [hskip, if_true, Option.some.injEq] at hstep
        exact hstep ▸ hb
      · simp only [hskip, Bool.false_eq_true, if_false, bind, Option.bind_eq_some] at hstep
        obtain ⟨b1, h1, h2⟩ := hstep
        have hb1 := worker_gated IsVisible b b1 a self h1 hb
        by_cases hself : self.hasAI = true
        · simp only [hself, if_true] at h2
          exact worker_gated IsVisible b1 b2 self a h2 hb1
        · simp only [hself, Bool.false_eq_true, if_false, Option.some.injEq] at h2
          exact h2 ▸ hb1
  · intro h
    unfold PlayerVisitObjectsNotifier.Visit_PlayerMapType at h
    split at h
    · simp only [Option.some.injEq] at h
      exact h ▸ hcalls
    · refine foldlM_keeps _ (fun l => ∀ c ∈ l, c.gated = true) m ?_ calls calls2 hcalls h
      intro b a b2 hb hstep
      by_cases hskip : (a.alive && !a.taxiFlying) = true
      · simp only [hskip, if_true, Option.some.injEq] at hstep
        exact hstep ▸ hb
      · simp only [hskip, Bool.false_eq_true, if_false] at hstep
        have hrest : ∀ b1, (∀ c ∈ b1, c.gated = true) →
            (if self.hasAI = true then UnitVisitObjectsNotifierWorker IsVisible b1 self a
              else some b1) = some b2 → ∀ c ∈ b2, c.gated = true := by
          intro b1 hb1 h2
          by_cases hself : self.hasAI = true
          · simp only [hself, if_true] at h2
            exact worker_gated IsVisible b1 b2 self a h2 hb1
          · simp only [hself, Bool.false_eq_true, if_false, Option.some.injEq] at h2
            exact h2 ▸ hb1
        by_cases hai : a.hasAI = true
        · simp only [hai, if_true, bind, Option.bind_eq_some] at hstep
          obtain ⟨b1, h1, h2⟩ := hstep
          exact hrest b1 (worker_gated IsVisible b b1 a self h1 hb) h2
        · simp only [hai, Bool.false_eq_true, if_false, bind, Option.some_bind] at hstep
          exact hrest b hb hstep
  · intro h
    unfold CreatureVisitObjectsNotifier.Visit_PlayerMapType at h
    split at h
    · simp only [Option.some.injEq] at h
      exact h ▸ hcalls
    · refine foldlM_keeps _ (fun l => ∀ c ∈ l, c.gated = true) m ?_ calls calls2 hcalls h
      intro b a b2 hb hstep
      by_cases hskip : (!a.alive || a.taxiFlying) = true
      · simp only [hskip, if_true, Option.some.injEq] at hstep
        exact hstep ▸ hb
      · simp only [hskip, Bool.false_eq_true, if_false] at hstep
        by_cases hai : a.hasAI = true
        · simp only [hai, if_true, bind, Option.bind_eq_some] at hstep
          obtain ⟨b1, h1, h2⟩ := hstep
          exact worker_gated IsVisible b1 b2 self a h2 (worker_gated IsVisible b b1 a self h1 hb)
        · simp only [hai, Bool.false_eq_true, if_false, bind, Option.some_bind] at hstep
          exact worker_gated IsVisible b b2 self a hstep hb
  · intro h
    unfold CreatureVisitObjectsNotifier.Visit_CreatureMapType at h
    split at h
    · simp only [Option.some.injEq] at h
      exact h ▸ hcalls
    · refine foldlM_keeps _ (fun l => ∀ c ∈ l, c.gated = true) m ?_ calls calls2 hcalls h
      intro b a b2 hb hstep
      by_cases hskip : (decide (a.guid = self.guid) || !a.alive) = true
      · simp only [hskip, if_true, Option.some.injEq] at hstep
        exact hstep ▸ hb
      · simp only [hskip, Bool.false_eq_true, if_false, bind, Option.bind_eq_some] at hstep
        obtain ⟨b1, h1, h2⟩ := hstep
        exact worker_gated IsVisible b1 b2 self a h2 (worker_gated IsVisible b b1 a self h1 hb)

/-- In the three passes other than player over players, every `MoveInLineOfSight` of a
completed pass is received by a living unit. -/
theorem passes_byLiving (IsVisible : Unit → Unit → Bool) (self : Unit)
    (calls calls2 : List Perception) (m : List Unit)
    (hcalls : ∀ c ∈ calls, c.byLiving = true) :
    (PlayerVisitObjectsNotifier.Visit_CreatureMapType IsVisible self calls m = some calls2 →
      ∀ c ∈ calls2, c.byLiving = true)
    ∧ (CreatureVisitObjectsNotifier.Visit_PlayerMapType IsVisible self calls m = some calls2 →
      ∀ c ∈ calls2, c.byLiving = true)
    ∧ (CreatureVisitObjectsNotifier.Visit_CreatureMapType IsVisible self calls m = some calls2 →
      ∀ c ∈ calls2, c.byLiving = true) := by
  refine ⟨?_, ?_, ?_⟩
  · intro h
    unfold PlayerVisitObjectsNotifier.Visit_CreatureMapType at h
    by_cases hdead : (!self.alive || self.taxiFlying) = true
    · simp only [hdead, if_true, Option.some.injEq] at h
      exact h ▸ hcalls
    · simp only [hdead, Bool.false_eq_true, if_false] at h
      have hself : self.alive = true := by
        cases hs : self.alive <;> simp [hs] at hdead ⊢
      refine foldlM_keeps _ (fun l => ∀ c ∈ l, c.byLiving = true) m ?_ calls calls2 hcalls h
      intro b a b2 hb hstep
      by_cases hskip : (!a.alive) = true
      · simp only [hskip, if_true, Option.some.injEq] at hstep
        exact hstep ▸ hb
      · simp only [hskip, Bool.false_eq_true, if_false, bind, Option.bind_eq_some] at hstep
        have ha : a.alive = true := by
          cases hs : a.alive <;> simp [hs] at hskip ⊢
        obtain ⟨b1, h1, h2⟩ := hstep
        have hb1 := worker_byLiving IsVisible b b1 a self ha h1 hb
        by_cases hai : self.hasAI = true
        · simp only [hai, if_true] at h2
          exact worker_byLiving IsVisible b1 b2 self a hself h2 hb1
        · simp only [hai, Bool.false_eq_true, if_false, Option.some.injEq] at h2
          exact h2 ▸ hb1
  · intro h
    unfold CreatureVisitObjectsNotifier.Visit_PlayerMapType at h
    by_cases hdead : (!self.alive) = true
    · simp only [hdead, if_true, Option.some.injEq] at h
      exact h ▸ hcalls
    · simp only [hdead, Bool.false_eq_true, if_false] at h
      have hself : self.alive = true := by
        cases hs : self.alive <;> simp [hs] at hdead ⊢
      refine foldlM_keeps _ (fun l => ∀ c ∈ l, c.byLiving = true) m ?_ calls calls2 hcalls h
      intro b a b2 hb hstep
      by_cases hskip : (!a.alive || a.taxiFlying) = true
      · simp only [hskip, if_true, Option.some.injEq] at hstep
        exact hstep ▸ hb
      · simp only [hskip, Bool.false_eq_true, if_false] at hstep
        have ha : a.alive = true := by
          cases hs : a.alive <;> simp [hs] at hskip ⊢
        by_cases hai : a.hasAI = true
        · simp only [hai, if_true, bind, Option.bind_eq_some] at hstep
          obtain ⟨b1, h1, h2⟩ := hstep
          exact worker_byLiving IsVisible b1 b2 self a hself h2
            (worker_byLiving IsVisible b b1 a self ha h1 hb)
        · simp only [hai, Bool.false_eq_true, if_false, bind, Option.some_bind] at hstep
          exact worker_byLiving IsVisible b b2 self a hself hstep hb
  · intro h
    unfold CreatureVisitObjectsNotifier.Visit_CreatureMapType at h
    by_cases hdead : (!self.alive) = true
    · simp only [hdead, if_true, Option.some.injEq] at h
      exact h ▸ hcalls
    · simp only [hdead, Bool.false_eq_true, if_false] at h
      have hself : self.alive = true := by
        cases hs : self.alive <;> simp [hs] at hdead ⊢
      refine foldlM_keeps _ (fun l => ∀ c ∈ l, c.byLiving = true) m ?_ calls calls2 hcalls h
      intro b a b2 hb hstep
      by_cases hskip : (decide (a.guid = self.guid) || !a.alive) = true
      · simp only [hskip, if_true, Option.some.injEq] at hstep
        exact hstep ▸ hb
      · simp only [hskip, Bool.false_eq_true, if_false, bind, Option.bind_eq_some] at hstep
        have ha : a.alive = true := by
          cases hs : a.alive <;> simp [hs] at hskip ⊢
        obtain ⟨b1, h1, h2⟩ := hstep
        exact worker_byLiving IsVisible b1 b2 self a hself h2
          (worker_byLiving IsVisible b b1 a self ha h1 hb)

/-- In the three pairings other than player over player, a pass from `a` over a
collection holding exactly `b`, both alive, not in transit, not in lost control, not
evading, with a controller and visible to each other, invokes `MoveInLineOfSight` once in
each direction. -/
theorem mutual_hooks_other_pairings (IsVisible : Unit → Unit → Bool) (a b : Unit)
    (hguid : a.guid ≠ b.guid)
    (ha : a.alive = true ∧ a.taxiFlying = false ∧ a.lostControl = false ∧ a.evadeMode = false
      ∧ a.hasAI = true)
    (hb : b.alive = true ∧ b.taxiFlying = false ∧ b.lostControl = false ∧ b.evadeMode = false
      ∧ b.hasAI = true)
    (hab : IsVisible a b = true) (hba : IsVisible b a = true) :
    PlayerVisitObjectsNotifier.Visit_CreatureMapType IsVisible a [] [b]
      = some [Perception.IsVisible b a, Perception.MoveInLineOfSight b a,
              Perception.IsVisible a b, Perception.MoveInLineOfSight a b]
    ∧ CreatureVisitObjectsNotifier.Visit_PlayerMapType IsVisible a [] [b]
      = some [Perception.IsVisible b a, Perception.MoveInLineOfSight b a,
              Perception.IsVisible a b, Perception.MoveInLineOfSight a b]
    ∧ CreatureVisitObjectsNotifier.Visit_CreatureMapType IsVisible a [] [b]
      = some [Perception.IsVisible b a, Perception.MoveInLineOfSight b a,
              Perception.IsVisible a b, Perception.MoveInLineOfSight a b] := by
  obtain ⟨ha1, ha2, ha3, ha4, ha5⟩ := ha
  obtain ⟨hb1, hb2, hb3, hb4, hb5⟩ := hb
  have hne : ¬ b.guid = a.guid := fun h => hguid h.symm
  refine ⟨?_, ?_, ?_⟩ <;>
    simp [PlayerVisitObjectsNotifier.Visit_CreatureMapType,
      CreatureVisitObjectsNotifier.Visit_PlayerMapType,
      CreatureVisitObjectsNotifier.Visit_CreatureMapType, UnitVisitObjectsNotifierWorker,
      ha1, ha2, ha3, ha4, ha5, hb1, hb2, hb3, hb4, hb5, hab, hba, hne]

/-- C3, evaluated on a dead player: in `PlayerVisitObjectsNotifier::Visit(PlayerMapType&)`
the loop skips the players that are alive and not in transit and processes the others, so
a dead player with a controller that is neither in lost control nor evading has
`MoveInLineOfSight` invoked on its controller. -/
theorem PlayerVisit_PlayerMap_dead_player_perceives :
    deadPlayer.alive = false
    ∧ PlayerVisitObjectsNotifier.Visit_PlayerMapType (fun _ _ => true) samplePlayer []
        [deadPlayer]
      = some [Perception.IsVisible deadPlayer samplePlayer,
              Perception.MoveInLineOfSight deadPlayer samplePlayer,
              Perception.IsVisible samplePlayer deadPlayer,
              Perception.MoveInLineOfSight samplePlayer deadPlayer] := by
  decide

/-- C4, evaluated on two living players in mutual sight: the pass of
`PlayerVisitObjectsNotifier::Visit(PlayerMapType&)` from one over the other makes no call
at all, so neither `MoveInLineOfSight` is invoked. -/
theorem PlayerVisit_PlayerMap_living_players_silent :
    PlayerVisitObjectsNotifier.Visit_PlayerMapType (fun _ _ => true) samplePlayer []
        [otherPlayer] = some []
    ∧ countMoveInLineOfSight samplePlayer otherPlayer [] = 0
    ∧ countMoveInLineOfSight otherPlayer samplePlayer [] = 0 := by
  decide

/-! ## Theorems: behaviour controller, second part -/

/-- C19, as stated, fails on a dead creature in flee-from-call whose faction carries the
flee flag: `EnterEvadeMode` is not invoked, the only call is the base-class handler. -/
theorem TimedFleeingEnded_flee_from_call_dead :
    (({ m_creature := { guid := 1, alive := false, factionFlags := some 64 },
        m_currentAIOrder := AIOrders.ORDER_FLEE_FROM_CALL_FOR_HELP } : CreatureAI).m_creature.factionFlags
      = some 64 ∧ (64 &&& 64 : Nat) ≠ 0)
    ∧ (CreatureAI.TimedFleeingEnded 64
        { m_creature := { guid := 1, alive := false, factionFlags := some 64 },
          m_currentAIOrder := AIOrders.ORDER_FLEE_FROM_CALL_FOR_HELP }).trace
      = [Call.UnitAI_TimedFleeingEnded]
    ∧ Call.EnterEvadeMode ∉ (CreatureAI.TimedFleeingEnded 64
        { m_creature := { guid := 1, alive := false, factionFlags := some 64 },
          m_currentAIOrder := AIOrders.ORDER_FLEE_FROM_CALL_FOR_HELP }).trace := by
  decide

/-- C19, amended: with the order flee-from-call, the creature alive and its faction
template carrying the flee-from-call-for-help flag, `TimedFleeingEnded` invokes
`EnterEvadeMode` (once, after the base-class handler). -/
theorem TimedFleeingEnded_flee_from_call (flag : Nat) (ai : CreatureAI) (factionFlags : Nat)
    (horder : ai.m_currentAIOrder = AIOrders.ORDER_FLEE_FROM_CALL_FOR_HELP)
    (halive : ai.m_creature.alive = true)
    (hfaction : ai.m_creature.factionFlags = some factionFlags)
    (hflag : factionFlags &&& flag ≠ 0) :
    (ai.TimedFleeingEnded flag).trace
      = ai.trace ++ [Call.UnitAI_TimedFleeingEnded, Call.EnterEvadeMode] := by
  simp [CreatureAI.TimedFleeingEnded, CreatureAI.call, CreatureAI.GetAIOrder,
    CreatureAI.SetAIOrder, horder, halive, hfaction, hflag]

/-- Witness for C19: a living creature in flee-from-call whose faction carries the flag. -/
theorem TimedFleeingEnded_flee_from_call_witness :
    (CreatureAI.TimedFleeingEnded 64
      { m_creature := { guid := 1, factionFlags := some 64 },
        m_currentAIOrder := AIOrders.ORDER_FLEE_FROM_CALL_FOR_HELP }).trace
      = [] ++ [Call.UnitAI_TimedFleeingEnded, Call.EnterEvadeMode] :=
  TimedFleeingEnded_flee_from_call 64
    { m_creature := { guid := 1, factionFlags := some 64 },
      m_currentAIOrder := AIOrders.ORDER_FLEE_FROM_CALL_FOR_HELP } 64 rfl rfl rfl (by decide)

/-- The controller fields `AttackStart` keeps: it only makes calls. -/
theorem AttackStart_only_calls (w : World) (ai : CreatureAI) (who : Option Unit) :
    ∃ made, ai.AttackStart w who = { ai with trace := ai.trace ++ made } := by
  cases who with
  | none => exact ⟨[], by simp [CreatureAI.AttackStart]⟩
  | some who =>
    unfold CreatureAI.AttackStart
    by_cases hp : ai.HasReactState ReactStates.REACT_PASSIVE = true
    · exact ⟨[], by simp [hp]⟩
    · simp only [hp, Bool.false_eq_true, if_false]
      by_cases ha : w.Attack ai.m_creature who ai.m_meleeEnabled = true
      · simp only [ha, if_true, CreatureAI.AttackPassengersIfCan, Unit.IsVehicle]
        cases hv : who.vehicleInfo with
        | none =>
          cases hc : ai.m_creature.civilian
          · exact ⟨_, by simp [CreatureAI.call, hc]; rfl⟩
          · exact ⟨_, by simp [CreatureAI.call, hc]; rfl⟩
        | some info =>
          simp only [Option.isSome_some, if_true, attackSeat_foldl]
          cases hc : ai.m_creature.civilian
          · exact ⟨_, by simp [CreatureAI.call, hc]; rfl⟩
          · exact ⟨_, by simp [CreatureAI.call, hc]; rfl⟩
      · exact ⟨[Call.Attack who.guid ai.m_meleeEnabled], by simp [ha, CreatureAI.call]⟩

/-- C20, as stated, fails on a creature whose faction carries the flee flag when the
timed panic cannot be entered: the panic is attempted and the order stays none. -/
theorem OnCallForHelp_panic_refused :
    ((64 &&& 64 : Nat) ≠ 0)
    ∧ (CreatureAI.OnCallForHelp 64 sampleWorldNoPanic
        { m_creature := { guid := 1, factionFlags := some 64 } }
        (some sampleVehicle)).m_currentAIOrder = AIOrders.ORDER_NONE
    ∧ (CreatureAI.OnCallForHelp 64 sampleWorldNoPanic
        { m_creature := { guid := 1, factionFlags := some 64 } }
        (some sampleVehicle)).trace = [Call.SetInPanic 10000] := by
  decide

/-- C20, amended: on a creature whose faction template carries the flee-from-call-for-help
flag, `OnCallForHelp` attempts a timed panic of 10000 ms, sets the order to flee-from-call
exactly when the panic is entered (the order is unchanged otherwise) and does not run
`AttackStart` (its only call is the panic attempt); on a creature whose faction is not
flagged, or that has no faction template, it is `AttackStart(enemy)` and the order is
unchanged. -/
theorem OnCallForHelp_flee_or_attack (flag : Nat) (w : World) (ai : CreatureAI)
    (enemy : Option Unit) :
    (∀ factionFlags, ai.m_creature.factionFlags = some factionFlags →
        factionFlags &&& flag ≠ 0 →
        ai.OnCallForHelp flag w enemy
          = { ai with
              trace := ai.trace ++ [Call.SetInPanic 10000]
              m_currentAIOrder :=
                if w.SetInPanic ai.m_creature 10000 then AIOrders.ORDER_FLEE_FROM_CALL_FOR_HELP
                else ai.m_currentAIOrder })
    ∧ ((ai.m_creature.factionFlags = none
          ∨ ∃ factionFlags, ai.m_creature.factionFlags = some factionFlags
              ∧ factionFlags &&& flag = 0) →
        ai.OnCallForHelp flag w enemy = ai.AttackStart w enemy
        ∧ (ai.OnCallForHelp flag w enemy).m_currentAIOrder = ai.m_currentAIOrder) := by
  constructor
  · intro factionFlags hf hflag
    unfold CreatureAI.OnCallForHelp
    simp only [hf, bne_iff_ne, ne_eq, hflag, not_false_eq_true, if_true]
    cases w.SetInPanic ai.m_creature 10000 <;>
      simp [CreatureAI.call, CreatureAI.SetAIOrder]
  · intro h
    have heq : ai.OnCallForHelp flag w enemy = ai.AttackStart w enemy := by
      unfold CreatureAI.OnCallForHelp
      rcases h with h | ⟨factionFlags, hf, hflag⟩
      · simp [h]
      · simp [hf, hflag]
    refine ⟨heq, ?_⟩
    rw [heq]
    obtain ⟨made, hmade⟩ := AttackStart_only_calls w ai enemy
    rw [hmade]

/-- Witness for C20: a flagged creature in the sample world enters panic and is ordered
to flee from the call; an unflagged one attacks. -/
theorem OnCallForHelp_flee_or_attack_witness :
    (CreatureAI.OnCallForHelp 64 sampleWorld
        { m_creature := { guid := 1, factionFlags := some 64 } }
        (some sampleVehicle)).m_currentAIOrder = AIOrders.ORDER_FLEE_FROM_CALL_FOR_HELP
    ∧ CreatureAI.OnCallForHelp 64 sampleWorld sampleAI (some sampleVehicle)
        = sampleAI.AttackStart sampleWorld (some sampleVehicle) :=
  ⟨by
      rw [(OnCallForHelp_flee_or_attack 64 sampleWorld
        { m_creature := { guid := 1, factionFlags := some 64 } } (some sampleVehicle)).1 64 rfl
        (by decide)]
      rfl,
    ((OnCallForHelp_flee_or_attack 64 sampleWorld sampleAI (some sampleVehicle)).2
      (Or.inl rfl)).1⟩

/-! ## Theorems: visibility notifier, second part -/

/-- C18: when the perceiving player of a `PlayerVisitObjectsNotifier` is dead or in
transit, `Visit` over any creature collection and over any player collection completes
with the calls it started with: no `IsVisible` check, no `MoveInLineOfSight`. -/
theorem PlayerVisit_dead_or_in_transit (IsVisible : Unit → Unit → Bool) (i_player : Unit)
    (calls : List Perception) (m : List Unit)
    (h : i_player.alive = false ∨ i_player.taxiFlying = true) :
    PlayerVisitObjectsNotifier.Visit_CreatureMapType IsVisible i_player calls m = some calls
    ∧ PlayerVisitObjectsNotifier.Visit_PlayerMapType IsVisible i_player calls m = some calls := by
  have hret : (!i_player.alive || i_player.taxiFlying) = true := by
    rcases h with h | h <;> simp [h]
  simp [PlayerVisitObjectsNotifier.Visit_CreatureMapType,
    PlayerVisitObjectsNotifier.Visit_PlayerMapType, hret]

/-- Witness for C18: the dead sample player perceives neither creatures nor players. -/
theorem PlayerVisit_dead_or_in_transit_witness :
    PlayerVisitObjectsNotifier.Visit_CreatureMapType (fun _ _ => true) deadPlayer []
        [sampleTarget] = some []
    ∧ PlayerVisitObjectsNotifier.Visit_PlayerMapType (fun _ _ => true) deadPlayer []
        [samplePlayer, otherPlayer] = some [] :=
  ⟨(PlayerVisit_dead_or_in_transit (fun _ _ => true) deadPlayer [] [sampleTarget]
      (Or.inl rfl)).1,
    (PlayerVisit_dead_or_in_transit (fun _ _ => true) deadPlayer [] [samplePlayer, otherPlayer]
      (Or.inl rfl)).2⟩

/-! ## Theorems: area-effect updater, second part -/

/-- C16: `VisitHelper` returns the updater and the candidate as they were (no holder
created, attached to or extended, nothing added to the affected set, no call at all)
when the candidate is dead, in transit, a totem creature, in evade mode, or a player in
game-master mode or with visibility off that is not the unit `i_check`; `i_check` is the
owner of the caster when it has one and the caster otherwise, and a candidate that is
`i_check` passes the checks of lines 194-213 whatever its game-master and visibility
flags are, when it is alive, not in transit, not a totem creature, in range and not
evading. -/
theorem VisitHelper_skips (w : SpellWorld) (u : DynamicObjectUpdater) (target : Unit) :
    ((target.alive = false ∨ target.taxiFlying = true
        ∨ (target.typeId = TypeID.TYPEID_UNIT ∧ target.totem = true)
        ∨ target.evadeMode = true
        ∨ (target.typeId = TypeID.TYPEID_PLAYER ∧ target.guid ≠ u.i_check
            ∧ (target.gameMaster = true ∨ target.visibilityOff = true))) →
      u.VisitHelper w target = (u, target))
    ∧ (target.guid = u.i_check → target.alive = true → target.taxiFlying = false →
        ¬(target.typeId = TypeID.TYPEID_UNIT ∧ target.totem = true) →
        target.evadeMode = false →
        ¬(w.GetDistance u.i_dynobject target
            > (if u.i_dynobject.caster.playerControlled && !target.playerControlled then
                u.i_dynobject.radius + target.combatReach else u.i_dynobject.radius)
              * (if u.i_dynobject.caster.playerControlled && !target.playerControlled then
                u.i_dynobject.radius + target.combatReach else u.i_dynobject.radius)) →
        u.passesUnitChecks w target = true)
    ∧ (∀ dynobject caster positive,
        (DynamicObjectUpdater.new dynobject caster positive).i_check
          = (match caster.owner with
             | some owner => owner
             | none => caster.guid)) := by
  refine ⟨?_, ?_, fun _ _ _ => rfl⟩
  · intro h
    have hfail : u.passesUnitChecks w target = false := by
      unfold DynamicObjectUpdater.passesUnitChecks
      rcases h with h | h | ⟨h1, h2⟩ | h | ⟨h1, h2, h3⟩
      · simp [h]
      · simp [h]
      · simp [h1, h2]
      · simp [h]
      · have hgm : (target.gameMaster || target.visibilityOff) = true := by
          rcases h3 with h3 | h3 <;> simp [h3]
        simp [h1, h2, hgm]
    simp [DynamicObjectUpdater.VisitHelper, hfail]
  · intro hguid halive htaxi htotem hevade hrange
    unfold DynamicObjectUpdater.passesUnitChecks
    have ht : (decide (target.typeId = TypeID.TYPEID_UNIT) && target.totem) = false := by
      cases ht1 : target.totem
      · simp
      · cases hty : target.typeId
        · exact absurd ⟨hty, ht1⟩ htotem
        · simp
    simp only [halive, htaxi, ht, hevade, hguid, Bool.not_true, Bool.or_self,
      Bool.false_eq_true, if_false, ne_eq, not_true_eq_false, decide_False, Bool.and_false,
      Bool.false_and]
    simp only [hrange, if_false]

/-- Witness for C16: the dead sample player is skipped, and the game master who owns the
caster of an area effect passes the checks. -/
theorem VisitHelper_skips_witness :
    sampleUpdater.VisitHelper sampleSpellWorld deadPlayer = (sampleUpdater, deadPlayer)
    ∧ DynamicObjectUpdater.passesUnitChecks sampleSpellWorld
        (DynamicObjectUpdater.new sampleUpdater.i_dynobject { guid := 50, owner := some 70 }
          false) sampleGameMaster = true :=
  ⟨(VisitHelper_skips sampleSpellWorld sampleUpdater deadPlayer).1 (Or.inl rfl),
    (VisitHelper_skips sampleSpellWorld
      (DynamicObjectUpdater.new sampleUpdater.i_dynobject { guid := 50, owner := some 70 } false)
      sampleGameMaster).2.1 rfl rfl rfl (by decide) rfl (by decide)⟩

/-- The loop over the override list stops at the first usable entry for the candidate's
entry and lets that entry decide. -/
theorem scriptTargetFound_eq (effIndex : Nat) (target : Unit) (bounds : List SpellTargetEntry) :
    scriptTargetFound effIndex target bounds
      = (match bounds.find? (fun e => e.usable effIndex
            && decide (e.targetEntry = target.entry)) with
         | some e => e.requirementMet target
         | none => false) := by
  induction bounds with
  | nil => rfl
  | cons e rest ih =>
    unfold scriptTargetFound
    by_cases h1 : e.CanNotHitWithSpellEffect effIndex = true
    · simp [h1, ih, SpellTargetEntry.usable, List.find?_cons]
    · simp only [Bool.not_eq_true] at h1
      by_cases h2 : e.type = SpellTargetType.SPELL_TARGET_TYPE_GAMEOBJECT
          ∨ e.type = SpellTargetType.SPELL_TARGET_TYPE_GAMEOBJECT_GUID
      · have hu : e.usable effIndex = false := by
          rcases h2 with h2 | h2 <;> simp [SpellTargetEntry.usable, h2]
        simp [h1, h2, ih, hu, List.find?_cons]
      · have hu : e.usable effIndex = true := by
          simp only [not_or] at h2
          simp [SpellTargetEntry.usable, h1, h2.1, h2.2]
        by_cases h3 : target.entry = e.targetEntry
        · simp only [h1, Bool.false_eq_true, if_false, h2, h3, if_true, hu, decide_True,
            Bool.and_self, List.find?_cons_of_pos]
          cases htype : e.type <;> cases hc : target.corpse <;> cases ha : target.alive <;>
            simp [SpellTargetEntry.requirementMet, htype, hc, ha]
        · have h3b : ¬ e.targetEntry = target.entry := fun h => h3 h.symm
          simp [h1, h2, h3, h3b, ih, hu, List.find?_cons]

/-- C17, as stated, fails on an override list whose first entry for the candidate's entry
is of the dead type and whose second is of the creature type: the list contains a usable
entry for the living candidate whose state requirement is met, and the candidate does not
pass the targeting stage. -/
theorem targeting_first_entry_decides :
    overrideListAccepts sampleUpdater.i_dynobject.effIndex sampleScriptTarget
        (sampleSpellWorldScripted.sSpellScriptTargetStorage
          sampleUpdater.i_dynobject.spellInfo.Id) = true
    ∧ (sampleUpdater.targeting sampleSpellWorldScripted sampleScriptTarget).2 = false := by
  decide

/-- C17, amended: with a non-empty override list the targeting stage consults neither
`CanAssistSpell` nor `CanAttackSpell`, and the candidate passes if and only if the first
usable entry of the list (able to hit with the effect index, not of a game-object type)
whose target entry is the candidate's entry has its state requirement met (dead type and
the candidate a corpse, or creature type and the candidate alive); with an empty list and
an anchor that is not script-targeted the candidate passes iff `CanAssistSpell` holds
for a positive anchor, `CanAttackSpell` for a negative one. -/
theorem targeting_override_list (w : SpellWorld) (u : DynamicObjectUpdater) (target : Unit) :
    (w.sSpellScriptTargetStorage u.i_dynobject.spellInfo.Id ≠ [] →
        (u.targeting w target).1 = u
        ∧ ((u.targeting w target).2 = true ↔
            ∃ e, (w.sSpellScriptTargetStorage u.i_dynobject.spellInfo.Id).find?
                  (fun e => e.usable u.i_dynobject.effIndex
                    && decide (e.targetEntry = target.entry)) = some e
              ∧ e.requirementMet target = true))
    ∧ (w.sSpellScriptTargetStorage u.i_dynobject.spellInfo.Id = [] → u.i_script = false →
        ((u.targeting w target).2 = true ↔
          (if u.i_positive then
            w.CanAssistSpell u.i_dynobject.caster target u.i_dynobject.spellInfo = true
          else w.CanAttackSpell u.i_dynobject.caster target u.i_dynobject.spellInfo = true))) := by
  constructor
  · intro hb
    have ht : u.targeting w target
        = (u, scriptTargetFound u.i_dynobject.effIndex target
            (w.sSpellScriptTargetStorage u.i_dynobject.spellInfo.Id)) := by
      simp [DynamicObjectUpdater.targeting, hb]
    rw [ht, scriptTargetFound_eq]
    refine ⟨rfl, ?_⟩
    cases hfind : (w.sSpellScriptTargetStorage u.i_dynobject.spellInfo.Id).find?
        (fun e => e.usable u.i_dynobject.effIndex && decide (e.targetEntry = target.entry)) with
    | none => simp
    | some e => simp
  · intro hb hs
    by_cases hp : u.i_positive = true <;>
      simp [DynamicObjectUpdater.targeting, hb, hs, hp]

/-- Witness for C17: on the sample override list the living creature of entry `5` meets
a dead-type entry first and does not pass; without a list the hostile sample anchor asks
`CanAttackSpell`. -/
theorem targeting_override_list_witness :
    (sampleUpdater.targeting sampleSpellWorldScripted sampleScriptTarget).1 = sampleUpdater
    ∧ ((sampleUpdater.targeting sampleSpellWorld sampleTarget).2 = true ↔
        (if sampleUpdater.i_positive then
          sampleSpellWorld.CanAssistSpell sampleUpdater.i_dynobject.caster sampleTarget
            sampleUpdater.i_dynobject.spellInfo = true
        else sampleSpellWorld.CanAttackSpell sampleUpdater.i_dynobject.caster sampleTarget
            sampleUpdater.i_dynobject.spellInfo = true)) :=
  ⟨((targeting_override_list sampleSpellWorldScripted sampleUpdater sampleScriptTarget).1
      (by decide)).1,
    (targeting_override_list sampleSpellWorld sampleUpdater sampleTarget).2 rfl rfl⟩

/-- The application stage is its two parts in sequence. -/
theorem apply_eq (w : SpellWorld) (u : DynamicObjectUpdater) (target : Unit) :
    u.apply w target = DynamicObjectUpdater.recordHit (u.applyHolder w target) target := rfl

/-- The holder part of the application stage leaves the anchor as it was and makes no
on-hit callback. -/
theorem applyHolder_frame (w : SpellWorld) (u : DynamicObjectUpdater) (target : Unit) :
    (u.applyHolder w target).1.i_dynobject = u.i_dynobject
    ∧ ∃ made, (u.applyHolder w target).1.calls = u.calls ++ made
      ∧ ∀ g, AuraCall.CasterHitTargetWithSpell g ∉ made := by
  unfold DynamicObjectUpdater.applyHolder
  simp only []
  split
  · split
    · exact ⟨rfl, _, rfl, by simp⟩
    · split
      · exact ⟨rfl, _, rfl, by simp⟩
      · exact ⟨rfl, [], by simp, by simp⟩
  · split
    · exact ⟨rfl, _, by simp only [List.append_assoc]; rfl, by simp⟩
    · exact ⟨rfl, _, rfl, by simp⟩

/-- A candidate that is not eligible only adds relationship-rule consultations to the
calls and leaves the anchor as it was. -/
theorem VisitHelper_not_eligible (w : SpellWorld) (u : DynamicObjectUpdater) (target : Unit)
    (h : u.eligible w target = false) :
    (u.VisitHelper w target).1.i_dynobject = u.i_dynobject
    ∧ ∃ made, (u.VisitHelper w target).1.calls = u.calls ++ made
      ∧ ∀ g, AuraCall.CasterHitTargetWithSpell g ∉ made := by
  obtain ⟨hdyn, consulted, hcalls, honly⟩ := targeting_frame w u target
  have hno : ∀ g, AuraCall.CasterHitTargetWithSpell g ∉ consulted := by
    intro g hg
    rcases honly _ hg with h | h <;> cases h
  have hsame : (u.targeting w target).1.passesSpellChecks w target
      = u.passesSpellChecks w target := by
    rcases targeting_cases w u target with h | h | h <;> rw [h] <;> rfl
  unfold DynamicObjectUpdater.VisitHelper
  by_cases h1 : u.passesUnitChecks w target = true
  · by_cases h2 : (u.targeting w target).2 = true
    · have h3 : u.passesSpellChecks w target = false := by
        simpa [DynamicObjectUpdater.eligible, h1, h2] using h
      simp only [h1, h2, hsame, h3, Bool.not_true, Bool.not_false, Bool.false_eq_true,
        if_false, if_true]
      exact ⟨hdyn, consulted, hcalls, hno⟩
    · simp only [h1, h2, Bool.not_true, Bool.false_eq_true, if_false, Bool.not_eq_true,
        Bool.not_false, if_true]
      exact ⟨hdyn, consulted, hcalls, hno⟩
  · simp only [h1, Bool.not_false, Bool.not_eq_true, if_true]
    exact ⟨trivial, [], by simp, by simp⟩

/-- One pass: the calls it adds hold the on-hit callback for the target exactly when the
target is eligible and not yet recorded as affected, and the target is recorded then. -/
theorem VisitHelper_hit (w : SpellWorld) (u : DynamicObjectUpdater) (target : Unit) :
    ∃ made, (u.VisitHelper w target).1.calls = u.calls ++ made
      ∧ (∀ g, made.count (AuraCall.CasterHitTargetWithSpell g)
          = if u.eligible w target = true ∧ u.i_dynobject.IsAffecting target = false
              ∧ g = target.guid then 1 else 0)
      ∧ (u.VisitHelper w target).1.i_dynobject.affected
          = (if u.eligible w target = true ∧ u.i_dynobject.IsAffecting target = false then
              u.i_dynobject.affected ++ [target.guid] else u.i_dynobject.affected) := by
  by_cases he : u.eligible w target = true
  · obtain ⟨hdyn, consulted, hcalls, honly⟩ := targeting_frame w u target
    obtain ⟨hdyn2, made, hmade, hnohit⟩ := applyHolder_frame w (u.targeting w target).1 target
    have hno : ∀ g, AuraCall.CasterHitTargetWithSpell g ∉ consulted := by
      intro g hg
      rcases honly _ hg with h | h <;> cases h
    rw [VisitHelper_of_eligible w u target he, apply_eq]
    unfold DynamicObjectUpdater.recordHit
    rw [hdyn2, hdyn]
    by_cases haff : u.i_dynobject.IsAffecting target = true
    · simp only [haff, Bool.not_true, Bool.false_eq_true, if_false, he, true_and, false_and]
      refine ⟨consulted ++ made, by rw [hmade, hcalls, List.append_assoc], ?_,
        by rw [hdyn2, hdyn]; simp⟩
      intro g
      rw [List.count_append, List.count_eq_zero_of_not_mem (hno g),
        List.count_eq_zero_of_not_mem (hnohit g)]
      simp
    · simp only [Bool.not_eq_true] at haff
      have hnotin : target.guid ∉ u.i_dynobject.affected := by
        simpa [DynamicObject.IsAffecting] using haff
      simp only [haff, Bool.not_false, if_true, he, true_and]
      refine ⟨consulted ++ made ++ [AuraCall.CasterHitTargetWithSpell target.guid],
        by rw [hmade, hcalls]; simp only [List.append_assoc], ?_, ?_⟩
      · intro g
        rw [List.count_append, List.count_append, List.count_eq_zero_of_not_mem (hno g),
          List.count_eq_zero_of_not_mem (hnohit g)]
        by_cases hg : g = target.guid
        · simp [hg]
        · have : ¬ target.guid = g := fun h => hg h.symm
          simp [hg, this]
      · simp [DynamicObject.AddAffected, hnotin]
  · simp only [Bool.not_eq_true] at he
    obtain ⟨hdyn, made, hmade, hnohit⟩ := VisitHelper_not_eligible w u target he
    refine ⟨made, hmade, ?_, ?_⟩
    · intro g
      simp [he, List.count_eq_zero_of_not_mem (hnohit g)]
    · simp [he, hdyn]

/-- Over a sequence of passes, every on-hit callback for a guid is one addition of the
guid to the affected set, and the guid is never added while it is in the set. -/
theorem passes_count (ps : List (SpellWorld × Unit)) (g : ObjectGuid) :
    ∀ u : DynamicObjectUpdater, ∃ made, (u.passes ps).calls = u.calls ++ made
      ∧ made.count (AuraCall.CasterHitTargetWithSpell g) + u.i_dynobject.affected.count g
          = (u.passes ps).i_dynobject.affected.count g
      ∧ (u.passes ps).i_dynobject.affected.count g ≤ max (u.i_dynobject.affected.count g) 1 := by
  induction ps with
  | nil =>
    intro u
    exact ⟨[], by simp [DynamicObjectUpdater.passes], by simp [DynamicObjectUpdater.passes],
      by simp [DynamicObjectUpdater.passes]⟩
  | cons p rest ih =>
    intro u
    obtain ⟨made1, hcalls1, hcount1, haff1⟩ := VisitHelper_hit p.1 u p.2
    obtain ⟨made2, hcalls2, hcount2, hle2⟩ := ih (u.VisitHelper p.1 p.2).1
    have hstep : u.passes (p :: rest) = (u.VisitHelper p.1 p.2).1.passes rest := by
      simp [DynamicObjectUpdater.passes]
    have hone : made1.count (AuraCall.CasterHitTargetWithSpell g)
          + u.i_dynobject.affected.count g
          = (u.VisitHelper p.1 p.2).1.i_dynobject.affected.count g
        ∧ (u.VisitHelper p.1 p.2).1.i_dynobject.affected.count g
          ≤ max (u.i_dynobject.affected.count g) 1 := by
      rw [hcount1 g, haff1]
      by_cases hhit : u.eligible p.1 p.2 = true ∧ u.i_dynobject.IsAffecting p.2 = false
      · have hnotin : p.2.guid ∉ u.i_dynobject.affected := by
          simpa [DynamicObject.IsAffecting] using hhit.2
        by_cases hg : g = p.2.guid
        · subst hg
          simp [hhit, List.count_append, List.count_eq_zero_of_not_mem hnotin]
        · have hg2 : ¬ p.2.guid = g := fun h => hg h.symm
          simp [hhit, hg, hg2, List.count_append]
      · have hnot : ¬(u.eligible p.1 p.2 = true ∧ u.i_dynobject.IsAffecting p.2 = false
            ∧ g = p.2.guid) := fun h => hhit ⟨h.1, h.2.1⟩
        simp [hhit, hnot]
    rw [hstep]
    refine ⟨made1 ++ made2, by rw [hcalls2, hcalls1, List.append_assoc], ?_, ?_⟩
    · rw [List.count_append, ← hcount2]
      omega
    · have := hone.2
      omega

/-- C15: over any sequence of `VisitHelper` passes of one anchor (in whatever state the
world and the targets are at each pass), the on-hit callback `CasterHitTargetWithSpell` is
invoked for a target at most once, and not at all when the target is already recorded as
affected; every callback is one addition to the affected set, which holds the target at
most once when it did before; and a single pass invokes the callback exactly when the
target reaches the application step while not yet recorded as affected. -/
theorem passes_hit_at_most_once (u : DynamicObjectUpdater) (ps : List (SpellWorld × Unit))
    (g : ObjectGuid) :
    (u.callsSince (u.passes ps)).count (AuraCall.CasterHitTargetWithSpell g) ≤ 1
    ∧ (g ∈ u.i_dynobject.affected →
        (u.callsSince (u.passes ps)).count (AuraCall.CasterHitTargetWithSpell g) = 0)
    ∧ (u.callsSince (u.passes ps)).count (AuraCall.CasterHitTargetWithSpell g)
          + u.i_dynobject.affected.count g
        = (u.passes ps).i_dynobject.affected.count g
    ∧ (u.i_dynobject.affected.count g ≤ 1 →
        (u.passes ps).i_dynobject.affected.count g ≤ 1)
    ∧ (∀ w target,
        AuraCall.CasterHitTargetWithSpell target.guid ∈ u.callsSince (u.VisitHelper w target).1
          ↔ (u.eligible w target = true ∧ u.i_dynobject.IsAffecting target = false)) := by
  obtain ⟨made, hcalls, hcount, hle⟩ := passes_count ps g u
  have hsince : u.callsSince (u.passes ps) = made := by
    simp [DynamicObjectUpdater.callsSince, hcalls]
  rw [hsince]
  refine ⟨by omega, ?_, hcount, by omega, ?_⟩
  · intro hg
    have : 0 < u.i_dynobject.affected.count g := List.count_pos_iff.mpr hg
    omega
  · intro w target
    obtain ⟨made1, hcalls1, hcount1, _⟩ := VisitHelper_hit w u target
    have hsince1 : u.callsSince (u.VisitHelper w target).1 = made1 := by
      simp [DynamicObjectUpdater.callsSince, hcalls1]
    rw [hsince1, ← List.count_pos_iff, hcount1 target.guid]
    by_cases h : u.eligible w target = true ∧ u.i_dynobject.IsAffecting target = false
    · simp [h]
    · simp [h]

/-- Witness for C15: three passes of the sample area effect over the sample target invoke
the callback once and record the target once. -/
theorem passes_hit_at_most_once_witness :
    (sampleUpdater.callsSince (sampleUpdater.passes samplePasses)).count
        (AuraCall.CasterHitTargetWithSpell 60)
      + sampleUpdater.i_dynobject.affected.count 60 = 1
    ∧ (sampleUpdater.passes samplePasses).i_dynobject.affected.count 60 ≤ 1 :=
  ⟨(passes_hit_at_most_once sampleUpdater samplePasses 60).2.2.1.trans (by decide),
    (passes_hit_at_most_once sampleUpdater samplePasses 60).2.2.2.1 (by decide)⟩

/-! ## Theorems: searchers -/

/-- The first-match loop over objects none of which is in phase and accepted: the
predicate is evaluated on those in phase, nothing is found. -/
theorem firstLoop_no_match {α : Type} (GetPhaseMask : α → Nat) (predicate : α → Bool)
    (l : List α) :
    ∀ s : ObjectSearcher α (List α),
      (∀ y ∈ l, ¬(InSamePhase GetPhaseMask s.i_phaseMask y = true ∧ predicate y = true)) →
      ObjectSearcher.firstLoop GetPhaseMask (evaluating predicate) s l
        = { s with i_check := s.i_check ++ l.filter (InSamePhase GetPhaseMask s.i_phaseMask) } := by
  induction l with
  | nil => intro s _; simp [ObjectSearcher.firstLoop]
  | cons a rest ih =>
    intro s h
    have hrest : ∀ y ∈ rest,
        ¬(InSamePhase GetPhaseMask s.i_phaseMask y = true ∧ predicate y = true) :=
      fun y hy => h y (List.mem_cons_of_mem a hy)
    unfold ObjectSearcher.firstLoop
    by_cases hp : InSamePhase GetPhaseMask s.i_phaseMask a = true
    · have hpred : predicate a = false := by
        cases hq : predicate a
        · rfl
        · exact absurd ⟨hp, hq⟩ (h a (List.mem_cons_self a rest))
      simp only [hp, Bool.not_true, Bool.false_eq_true, if_false, evaluating, hpred]
      rw [ih { i_phaseMask := s.i_phaseMask, i_check := s.i_check ++ [a],
               i_object := s.i_object } hrest]
      simp [List.filter_cons, hp]
    · simp only [Bool.not_eq_true] at hp
      simp only [hp, Bool.not_false, if_true]
      rw [ih s hrest]
      simp [List.filter_cons, hp]

/-- The first-match loop stops at the first object in phase that the predicate accepts. -/
theorem firstLoop_match {α : Type} (GetPhaseMask : α → Nat) (predicate : α → Bool)
    (pre : List α) (x : α) (post : List α) :
    ∀ s : ObjectSearcher α (List α),
      (∀ y ∈ pre, ¬(InSamePhase GetPhaseMask s.i_phaseMask y = true ∧ predicate y = true)) →
      InSamePhase GetPhaseMask s.i_phaseMask x = true → predicate x = true →
      ObjectSearcher.firstLoop GetPhaseMask (evaluating predicate) s (pre ++ x :: post)
        = { s with
            i_check := s.i_check ++ pre.filter (InSamePhase GetPhaseMask s.i_phaseMask) ++ [x]
            i_object := some x } := by
  induction pre with
  | nil =>
    intro s _ hx hpx
    simp [ObjectSearcher.firstLoop, hx, hpx, evaluating]
  | cons a rest ih =>
    intro s h hx hpx
    have hrest : ∀ y ∈ rest,
        ¬(InSamePhase GetPhaseMask s.i_phaseMask y = true ∧ predicate y = true) :=
      fun y hy => h y (List.mem_cons_of_mem a hy)
    rw [List.cons_append]
    unfold ObjectSearcher.firstLoop
    by_cases hp : InSamePhase GetPhaseMask s.i_phaseMask a = true
    · have hpred : predicate a = false := by
        cases hq : predicate a
        · rfl
        · exact absurd ⟨hp, hq⟩ (h a (List.mem_cons_self a rest))
      simp only [hp, Bool.not_true, Bool.false_eq_true, if_false, evaluating, hpred]
      rw [ih { i_phaseMask := s.i_phaseMask, i_check := s.i_check ++ [a],
               i_object := s.i_object } hrest hx hpx]
      simp [List.filter_cons, hp]
    · simp only [Bool.not_eq_true] at hp
      simp only [hp, Bool.not_false, if_true]
      rw [ih s hrest hx hpx]
      simp [List.filter_cons, hp]

/-- C11: the `Visit` of a first-match searcher (`CreatureSearcher`, `UnitSearcher`,
`PlayerSearcher`, `GameObjectSearcher`, `WorldObjectSearcher`: one body, any collection)
with an empty result ends with the first object of the collection that is in the
searcher's phase and accepted by the predicate, having evaluated the predicate on the
objects in phase up to that one and on none after it; without such an object the result
stays empty and every object in phase was evaluated; with a result already set, `Visit`
returns the searcher as it was, so nothing is evaluated. -/
theorem VisitFirst_first_match {α : Type} (GetPhaseMask : α → Nat) (predicate : α → Bool)
    (s : ObjectSearcher α (List α)) (m : List α) :
    (s.i_object = none →
      (∀ pre x post, m = pre ++ x :: post →
        (∀ y ∈ pre, ¬(InSamePhase GetPhaseMask s.i_phaseMask y = true ∧ predicate y = true)) →
        InSamePhase GetPhaseMask s.i_phaseMask x = true → predicate x = true →
        ObjectSearcher.VisitFirst GetPhaseMask (evaluating predicate) s m
          = { s with
              i_check := s.i_check ++ pre.filter (InSamePhase GetPhaseMask s.i_phaseMask) ++ [x]
              i_object := some x })
      ∧ ((∀ y ∈ m, ¬(InSamePhase GetPhaseMask s.i_phaseMask y = true ∧ predicate y = true)) →
        ObjectSearcher.VisitFirst GetPhaseMask (evaluating predicate) s m
          = { s with
              i_check := s.i_check ++ m.filter (InSamePhase GetPhaseMask s.i_phaseMask)
              i_object := none }))
    ∧ (s.i_object ≠ none →
        ObjectSearcher.VisitFirst GetPhaseMask (evaluating predicate) s m = s) := by
  constructor
  · intro hnone
    constructor
    · intro pre x post hm hpre hx hpx
      subst hm
      simp only [ObjectSearcher.VisitFirst, hnone, Option.isSome_none, Bool.false_eq_true,
        if_false]
      exact firstLoop_match GetPhaseMask predicate pre x post s hpre hx hpx
    · intro hno
      simp only [ObjectSearcher.VisitFirst, hnone, Option.isSome_none, Bool.false_eq_true,
        if_false]
      rw [firstLoop_no_match GetPhaseMask predicate m s hno]
      cases s
      simp_all
  · intro hset
    have : s.i_object.isSome = true := Option.isSome_iff_ne_none.mpr hset
    simp [ObjectSearcher.VisitFirst, this]

/-- Witness for C11: among an object out of phase, one in phase and a third one, a
searcher for "alive" finds the second and evaluates only it. -/
theorem VisitFirst_first_match_witness :
    CreatureSearcher.Visit (evaluating (fun u => u.alive))
        { i_phaseMask := 1, i_check := [] } [outOfPhaseTarget, sampleTarget, sampleScriptTarget]
      = { i_phaseMask := 1, i_check := [] ++ [] ++ [sampleTarget], i_object := some sampleTarget } :=
  ((VisitFirst_first_match Unit.phaseMask (fun u => u.alive)
      { i_phaseMask := 1, i_check := [] }
      [outOfPhaseTarget, sampleTarget, sampleScriptTarget]).1 rfl).1
    [outOfPhaseTarget] sampleTarget [sampleScriptTarget] rfl (by decide) (by decide) rfl

/-- A last-match `Visit` over two collections in a row is the `Visit` over their
concatenation. -/
theorem VisitLast_append {α χ : Type} (GetPhaseMask : α → Nat) (check : χ → α → Bool × χ)
    (s : ObjectSearcher α χ) (l1 l2 : List α) :
    ObjectSearcher.VisitLast GetPhaseMask check s (l1 ++ l2)
      = ObjectSearcher.VisitLast GetPhaseMask check
          (ObjectSearcher.VisitLast GetPhaseMask check s l1) l2 := by
  simp [ObjectSearcher.VisitLast, List.foldl_append]

/-- One iteration of a last-match `Visit`. -/
theorem VisitLast_cons {α χ : Type} (GetPhaseMask : α → Nat) (check : χ → α → Bool × χ)
    (s : ObjectSearcher α χ) (a : α) (rest : List α) :
    ObjectSearcher.VisitLast GetPhaseMask check s (a :: rest)
      = ObjectSearcher.VisitLast GetPhaseMask check
          (if !InSamePhase GetPhaseMask s.i_phaseMask a then s
           else if (check s.i_check a).1 then
             { s with i_check := (check s.i_check a).2, i_object := some a }
           else { s with i_check := (check s.i_check a).2 }) rest := by
  simp [ObjectSearcher.VisitLast]

/-- A last-match `Visit` evaluates the predicate on every object in phase and keeps its
phase mask. -/
theorem VisitLast_evaluates {α : Type} (GetPhaseMask : α → Nat) (predicate : α → Bool)
    (l : List α) :
    ∀ s : ObjectSearcher α (List α),
      (ObjectSearcher.VisitLast GetPhaseMask (evaluating predicate) s l).i_check
          = s.i_check ++ l.filter (InSamePhase GetPhaseMask s.i_phaseMask)
      ∧ (ObjectSearcher.VisitLast GetPhaseMask (evaluating predicate) s l).i_phaseMask
          = s.i_phaseMask := by
  induction l with
  | nil => intro s; simp [ObjectSearcher.VisitLast]
  | cons a rest ih =>
    intro s
    rw [VisitLast_cons]
    by_cases hp : InSamePhase GetPhaseMask s.i_phaseMask a = true
    · cases hq : predicate a <;>
        simp [hp, hq, evaluating, ih, List.filter_cons]
    · simp only [Bool.not_eq_true] at hp
      simp [hp, ih, List.filter_cons]

/-- A last-match `Visit` over objects none of which is in phase and accepted keeps the
result it had. -/
theorem VisitLast_no_match {α : Type} (GetPhaseMask : α → Nat) (predicate : α → Bool)
    (l : List α) :
    ∀ s : ObjectSearcher α (List α),
      (∀ y ∈ l, ¬(InSamePhase GetPhaseMask s.i_phaseMask y = true ∧ predicate y = true)) →
      (ObjectSearcher.VisitLast GetPhaseMask (evaluating predicate) s l).i_object
        = s.i_object := by
  induction l with
  | nil => intro s _; simp [ObjectSearcher.VisitLast]
  | cons a rest ih =>
    intro s h
    have hrest : ∀ y ∈ rest,
        ¬(InSamePhase GetPhaseMask s.i_phaseMask y = true ∧ predicate y = true) :=
      fun y hy => h y (List.mem_cons_of_mem a hy)
    rw [VisitLast_cons]
    by_cases hp : InSamePhase GetPhaseMask s.i_phaseMask a = true
    · have hpred : predicate a = false := by
        cases hq : predicate a
        · rfl
        · exact absurd ⟨hp, hq⟩ (h a (List.mem_cons_self a rest))
      simp only [hp, Bool.not_true, Bool.false_eq_true, if_false, evaluating, hpred]
      rw [ih { i_phaseMask := s.i_phaseMask, i_check := s.i_check ++ [a],
               i_object := s.i_object } hrest]
    · simp only [Bool.not_eq_true] at hp
      simp only [hp, Bool.not_false, if_true]
      exact ih s hrest

/-- C12: the `Visit` of a last-match searcher (`CreatureLastSearcher`, `UnitLastSearcher`,
`GameObjectLastSearcher`: one body, any collection) goes through the whole collection,
evaluating the predicate on every object in the searcher's phase, and ends with the last
object of the collection that is in phase and accepted by the predicate; when no object
is, the result held on entry is unchanged. -/
theorem VisitLast_last_match {α : Type} (GetPhaseMask : α → Nat) (predicate : α → Bool)
    (s : ObjectSearcher α (List α)) (m : List α) :
    (ObjectSearcher.VisitLast GetPhaseMask (evaluating predicate) s m).i_check
        = s.i_check ++ m.filter (InSamePhase GetPhaseMask s.i_phaseMask)
    ∧ (∀ pre x post, m = pre ++ x :: post →
        InSamePhase GetPhaseMask s.i_phaseMask x = true → predicate x = true →
        (∀ y ∈ post, ¬(InSamePhase GetPhaseMask s.i_phaseMask y = true ∧ predicate y = true)) →
        (ObjectSearcher.VisitLast GetPhaseMask (evaluating predicate) s m).i_object = some x)
    ∧ ((∀ y ∈ m, ¬(InSamePhase GetPhaseMask s.i_phaseMask y = true ∧ predicate y = true)) →
        (ObjectSearcher.VisitLast GetPhaseMask (evaluating predicate) s m).i_object
          = s.i_object) := by
  refine ⟨(VisitLast_evaluates GetPhaseMask predicate m s).1, ?_,
    VisitLast_no_match GetPhaseMask predicate m s⟩
  intro pre x post hm hx hpx hpost
  subst hm
  rw [VisitLast_append, VisitLast_cons]
  have hmask := (VisitLast_evaluates GetPhaseMask predicate pre s).2
  simp only [hmask, hx, Bool.not_true, Bool.false_eq_true, if_false, evaluating, hpx, if_true]
  rw [VisitLast_no_match GetPhaseMask predicate post _ (by simpa [hmask] using hpost)]

/-- Witness for C12: among two objects in phase and accepted, the second is the result. -/
theorem VisitLast_last_match_witness :
    (UnitLastSearcher.Visit (evaluating (fun u => u.alive))
        { i_phaseMask := 1, i_check := [] }
        [sampleTarget, sampleScriptTarget, outOfPhaseTarget]).i_object
      = some sampleScriptTarget :=
  (VisitLast_last_match Unit.phaseMask (fun u => u.alive) { i_phaseMask := 1, i_check := [] }
      [sampleTarget, sampleScriptTarget, outOfPhaseTarget]).2.1
    [sampleTarget] sampleScriptTarget [outOfPhaseTarget] rfl (by decide) rfl (by decide)

/-- The searcher of `DoRetreat` is the last-match searcher over units. -/
theorem CreatureLastSearcher_Visit_eq {χ : Type} (check : χ → Unit → Bool × χ)
    (s : Searcher χ) (m : List Unit) :
    (CreatureLastSearcher.Visit check s m).toObjectSearcher
      = ObjectSearcher.VisitLast Unit.phaseMask check s.toObjectSearcher m := by
  induction m generalizing s with
  | nil => rfl
  | cons a rest ih =>
    rw [VisitLast_cons]
    simp only [CreatureLastSearcher.Visit, List.foldl_cons] at ih ⊢
    rw [ih]
    congr 1
    simp only [Unit.InSamePhase, InSamePhase, Searcher.toObjectSearcher]
    split
    · rfl
    · split <;> rfl

/-- One iteration of a collect-all `Visit`. -/
theorem ListSearcher_Visit_cons {α χ : Type} (GetPhaseMask : α → Nat)
    (check : χ → α → Bool × χ) (s : ListSearcher α χ) (a : α) (rest : List α) :
    ListSearcher.Visit GetPhaseMask check s (a :: rest)
      = ListSearcher.Visit GetPhaseMask check
          (if InSamePhase GetPhaseMask s.i_phaseMask a then
             if (check s.i_check a).1 then
               { s with i_check := (check s.i_check a).2, i_objects := s.i_objects ++ [a] }
             else { s with i_check := (check s.i_check a).2 }
           else s) rest := by
  simp [ListSearcher.Visit]

/-- C13: the `Visit` of a collect-all searcher (`CreatureListSearcher`, `UnitListSearcher`,
`PlayerListSearcher`, `GameObjectListSearcher`, `WorldObjectListSearcher`: one body, any
collection) appends to the sequence it held exactly the objects of the collection that
are in the searcher's phase and accepted by the predicate, each once and in the order of
the collection; the predicate is evaluated on the objects in phase only. -/
theorem ListSearcher_Visit_collects {α : Type} (GetPhaseMask : α → Nat) (predicate : α → Bool)
    (m : List α) (s : ListSearcher α (List α)) :
    ListSearcher.Visit GetPhaseMask (evaluating predicate) s m
      = { s with
          i_check := s.i_check ++ m.filter (InSamePhase GetPhaseMask s.i_phaseMask)
          i_objects := s.i_objects
            ++ m.filter (fun a => InSamePhase GetPhaseMask s.i_phaseMask a && predicate a) } := by
  induction m generalizing s with
  | nil => simp [ListSearcher.Visit]
  | cons a rest ih =>
    rw [ListSearcher_Visit_cons]
    by_cases hp : InSamePhase GetPhaseMask s.i_phaseMask a = true
    · cases hq : predicate a
      · simp only [hp, if_true, evaluating, hq, Bool.false_eq_true, if_false]
        rw [ih]
        simp [List.filter_cons, hp, hq]
      · simp only [hp, if_true, evaluating, hq]
        rw [ih]
        simp [List.filter_cons, hp, hq]
    · simp only [Bool.not_eq_true] at hp
      simp only [hp, Bool.false_eq_true, if_false]
      rw [ih]
      simp [List.filter_cons, hp]

/-- The first-match loop does not see the objects out of phase. -/
theorem firstLoop_filter {α χ : Type} (GetPhaseMask : α → Nat) (check : χ → α → Bool × χ)
    (l : List α) :
    ∀ s : ObjectSearcher α χ,
      ObjectSearcher.firstLoop GetPhaseMask check s l
        = ObjectSearcher.firstLoop GetPhaseMask check s
            (l.filter (InSamePhase GetPhaseMask s.i_phaseMask)) := by
  induction l with
  | nil => intro s; rfl
  | cons a rest ih =>
    intro s
    by_cases hp : InSamePhase GetPhaseMask s.i_phaseMask a = true
    · rw [List.filter_cons_of_pos hp]
      unfold ObjectSearcher.firstLoop
      simp only [hp, Bool.not_true, Bool.false_eq_true, if_false]
      split
      · rfl
      · exact ih { s with i_check := (check s.i_check a).2 }
    · rw [List.filter_cons_of_neg hp]
      simp only [Bool.not_eq_true] at hp
      rw [← ih s]
      conv => lhs; unfold ObjectSearcher.firstLoop
      simp [hp]

/-- The object a first-match loop ends with is the one it started with or an object of
the collection. -/
theorem firstLoop_mem {α χ : Type} (GetPhaseMask : α → Nat) (check : χ → α → Bool × χ)
    (l : List α) (x : α) :
    ∀ s : ObjectSearcher α χ,
      (ObjectSearcher.firstLoop GetPhaseMask check s l).i_object = some x →
      s.i_object = some x ∨ x ∈ l := by
  induction l with
  | nil => intro s h; exact Or.inl h
  | cons a rest ih =>
    intro s h
    unfold ObjectSearcher.firstLoop at h
    split at h
    · rcases ih s h with h1 | h1
      · exact Or.inl h1
      · exact Or.inr (List.mem_cons_of_mem a h1)
    · simp only [] at h
      split at h
      · simp only [Option.some.injEq] at h
        exact Or.inr (h ▸ List.mem_cons_self a rest)
      · rcases ih _ h with h1 | h1
        · exact Or.inl h1
        · exact Or.inr (List.mem_cons_of_mem a h1)

/-- A last-match `Visit` keeps the phase mask, whatever the check does. -/
theorem VisitLast_phaseMask {α χ : Type} (GetPhaseMask : α → Nat) (check : χ → α → Bool × χ)
    (l : List α) :
    ∀ s : ObjectSearcher α χ,
      (ObjectSearcher.VisitLast GetPhaseMask check s l).i_phaseMask = s.i_phaseMask := by
  induction l with
  | nil => intro s; rfl
  | cons a rest ih =>
    intro s
    rw [VisitLast_cons, ih]
    split
    · rfl
    · split <;> rfl

/-- A last-match `Visit` does not see the objects out of phase. -/
theorem VisitLast_filter {α χ : Type} (GetPhaseMask : α → Nat) (check : χ → α → Bool × χ)
    (l : List α) :
    ∀ s : ObjectSearcher α χ,
      ObjectSearcher.VisitLast GetPhaseMask check s l
        = ObjectSearcher.VisitLast GetPhaseMask check s
            (l.filter (InSamePhase GetPhaseMask s.i_phaseMask)) := by
  induction l with
  | nil => intro s; rfl
  | cons a rest ih =>
    intro s
    by_cases hp : InSamePhase GetPhaseMask s.i_phaseMask a = true
    · rw [List.filter_cons_of_pos hp, VisitLast_cons, VisitLast_cons]
      simp only [hp, Bool.not_true, Bool.false_eq_true, if_false]
      split
      · exact ih { s with i_check := (check s.i_check a).2, i_object := some a }
      · exact ih { s with i_check := (check s.i_check a).2 }
    · rw [List.filter_cons_of_neg hp, VisitLast_cons]
      simp only [Bool.not_eq_true] at hp
      simp only [hp, Bool.not_false, if_true]
      exact ih s

/-- The object a last-match `Visit` ends with is the one it started with or an object of
the collection. -/
theorem VisitLast_mem {α χ : Type} (GetPhaseMask : α → Nat) (check : χ → α → Bool × χ)
    (l : List α) (x : α) :
    ∀ s : ObjectSearcher α χ,
      (ObjectSearcher.VisitLast GetPhaseMask check s l).i_object = some x →
      s.i_object = some x ∨ x ∈ l := by
  induction l with
  | nil => intro s h; exact Or.inl h
  | cons a rest ih =>
    intro s h
    rw [VisitLast_cons] at h
    rcases ih _ h with h1 | h1
    · split at h1
      · exact Or.inl h1
      · split at h1
        · simp only [Option.some.injEq] at h1
          exact Or.inr (h1 ▸ List.mem_cons_self a rest)
        · exact Or.inl h1
    · exact Or.inr (List.mem_cons_of_mem a h1)

/-- A collect-all `Visit` does not see the objects out of phase. -/
theorem ListSearcher_Visit_filter {α χ : Type} (GetPhaseMask : α → Nat)
    (check : χ → α → Bool × χ) (l : List α) :
    ∀ s : ListSearcher α χ,
      ListSearcher.Visit GetPhaseMask check s l
        = ListSearcher.Visit GetPhaseMask check s
            (l.filter (InSamePhase GetPhaseMask s.i_phaseMask)) := by
  induction l with
  | nil => intro s; rfl
  | cons a rest ih =>
    intro s
    by_cases hp : InSamePhase GetPhaseMask s.i_phaseMask a = true
    · rw [List.filter_cons_of_pos hp, ListSearcher_Visit_cons, ListSearcher_Visit_cons]
      simp only [hp, if_true]
      split
      · exact ih { s with i_check := (check s.i_check a).2, i_objects := s.i_objects ++ [a] }
      · exact ih { s with i_check := (check s.i_check a).2 }
    · rw [List.filter_cons_of_neg hp, ListSearcher_Visit_cons]
      simp only [Bool.not_eq_true] at hp
      simp only [hp, Bool.false_eq_true, if_false]
      exact ih s

/-- The objects a collect-all `Visit` ends with are those it started with and objects of
the collection. -/
theorem ListSearcher_Visit_mem {α χ : Type} (GetPhaseMask : α → Nat)
    (check : χ → α → Bool × χ) (l : List α) (x : α) :
    ∀ s : ListSearcher α χ,
      x ∈ (ListSearcher.Visit GetPhaseMask check s l).i_objects →
      x ∈ s.i_objects ∨ x ∈ l := by
  induction l with
  | nil => intro s h; exact Or.inl h
  | cons a rest ih =>
    intro s h
    rw [ListSearcher_Visit_cons] at h
    rcases ih _ h with h1 | h1
    · split at h1
      · split at h1
        · rcases List.mem_append.mp h1 with h2 | h2
          · exact Or.inl h2
          · exact Or.inr (by simp only [List.mem_singleton] at h2; simp [h2])
        · exact Or.inl h1
      · exact Or.inl h1
    · exact Or.inr (List.mem_cons_of_mem a h1)

/-- The creature set of `ObjectUpdater::Visit` receives every creature of the collection. -/
theorem ObjectUpdater_Visit_mem (m : List Unit) :
    ∀ set : List ObjectGuid, ∀ g,
      (g ∈ set ∨ ∃ creature ∈ m, creature.guid = g) → g ∈ ObjectUpdater.Visit set m := by
  induction m with
  | nil =>
    intro set g h
    rcases h with h | ⟨c, hc, _⟩
    · exact h
    · cases hc
  | cons a rest ih =>
    intro set g h
    simp only [ObjectUpdater.Visit, List.foldl_cons] at ih ⊢
    apply ih
    rcases h with h | ⟨c, hc, hg⟩
    · left
      split
      · exact h
      · exact List.mem_append_left _ h
    · rcases List.mem_cons.mp hc with hc | hc
      · left
        subst hc
        subst hg
        split
        · assumption
        · exact List.mem_append_right _ (List.mem_singleton_self _)
      · exact Or.inr ⟨c, hc, hg⟩

/-- C14, as stated, fails on the side-effecting visitor `DynamicObjectUpdater::Visit`: a
creature that shares no phase with the anchor receives the aura holder and the on-hit
callback and is recorded as affected. -/
theorem DynamicObjectUpdater_Visit_ignores_phase :
    InSamePhase Unit.phaseMask sampleUpdater.i_dynobject.phaseMask outOfPhaseTarget = false
    ∧ (sampleUpdater.Visit sampleSpellWorld [outOfPhaseTarget]).2
        = [{ outOfPhaseTarget with
             holders := [{ spellId := 777, casterGuid := 50, duration := 9000, auras := [1] }] }]
    ∧ AuraCall.CasterHitTargetWithSpell 62
        ∈ (sampleUpdater.Visit sampleSpellWorld [outOfPhaseTarget]).1.calls
    ∧ (sampleUpdater.Visit sampleSpellWorld [outOfPhaseTarget]).1.i_dynobject.affected = [62] := by
  decide

/-- C14, amended: in the three searcher shapes (first-match, last-match, collect-all;
any collection, any check functor, pure or not) an object that does not share a phase
with the searcher is invisible: `Visit` gives the same searcher as on the collection
without the objects out of phase, so the check is never evaluated on them, and an object
returned or collected by `Visit` is in phase unless the searcher held it on entry. The
side-effecting visitor `ObjectUpdater::Visit` has no phase test: it puts every creature
of the collection into its set. -/
theorem searchers_respect_phase {α χ : Type} (GetPhaseMask : α → Nat)
    (check : χ → α → Bool × χ) (m : List α) :
    (∀ s : ObjectSearcher α χ,
      ObjectSearcher.VisitFirst GetPhaseMask check s m
          = ObjectSearcher.VisitFirst GetPhaseMask check s
              (m.filter (InSamePhase GetPhaseMask s.i_phaseMask))
      ∧ ObjectSearcher.VisitLast GetPhaseMask check s m
          = ObjectSearcher.VisitLast GetPhaseMask check s
              (m.filter (InSamePhase GetPhaseMask s.i_phaseMask))
      ∧ (∀ x, (ObjectSearcher.VisitFirst GetPhaseMask check s m).i_object = some x →
          s.i_object = some x ∨ InSamePhase GetPhaseMask s.i_phaseMask x = true)
      ∧ (∀ x, (ObjectSearcher.VisitLast GetPhaseMask check s m).i_object = some x →
          s.i_object = some x ∨ InSamePhase GetPhaseMask s.i_phaseMask x = true))
    ∧ (∀ s : ListSearcher α χ,
      ListSearcher.Visit GetPhaseMask check s m
          = ListSearcher.Visit GetPhaseMask check s
              (m.filter (InSamePhase GetPhaseMask s.i_phaseMask))
      ∧ (∀ x ∈ (ListSearcher.Visit GetPhaseMask check s m).i_objects,
          x ∈ s.i_objects ∨ InSamePhase GetPhaseMask s.i_phaseMask x = true))
    ∧ (∀ (set : List ObjectGuid) (creatures : List Unit), ∀ creature ∈ creatures,
        creature.guid ∈ ObjectUpdater.Visit set creatures) := by
  refine ⟨fun s => ⟨?_, VisitLast_filter GetPhaseMask check m s, ?_, ?_⟩,
    fun s => ⟨ListSearcher_Visit_filter GetPhaseMask check m s, ?_⟩, ?_⟩
  · unfold ObjectSearcher.VisitFirst
    split
    · rfl
    · exact firstLoop_filter GetPhaseMask check m s
  · intro x hx
    unfold ObjectSearcher.VisitFirst at hx
    split at hx
    · exact Or.inl hx
    · rw [firstLoop_filter] at hx
      rcases firstLoop_mem GetPhaseMask check _ x s hx with h | h
      · exact Or.inl h
      · exact Or.inr (List.mem_filter.mp h).2
  · intro x hx
    rw [VisitLast_filter] at hx
    rcases VisitLast_mem GetPhaseMask check _ x s hx with h | h
    · exact Or.inl h
    · exact Or.inr (List.mem_filter.mp h).2
  · intro x hx
    rw [ListSearcher_Visit_filter] at hx
    rcases ListSearcher_Visit_mem GetPhaseMask check _ x s hx with h | h
    · exact Or.inl h
    · exact Or.inr (List.mem_filter.mp h).2
  · intro set creatures creature hc
    exact ObjectUpdater_Visit_mem creatures set creature.guid (Or.inr ⟨creature, hc, rfl⟩)

/-- Witness for C14: a collect-all searcher in phase `1` over the sample creatures does
not collect the creature of phase `2`. -/
theorem searchers_respect_phase_witness :
    outOfPhaseTarget ∉ (CreatureListSearcher.Visit (evaluating (fun u => u.alive))
        { i_phaseMask := 1, i_check := [] }
        [outOfPhaseTarget, sampleTarget]).i_objects :=
  fun h =>
    absurd (((searchers_respect_phase Unit.phaseMask (evaluating (fun u => u.alive))
      [outOfPhaseTarget, sampleTarget]).2.1 { i_phaseMask := 1, i_check := [] }).2
      outOfPhaseTarget h) (by decide)

/-! ## Theorems: behaviour controller, third part -/

/-- What `EnterCombat` does, by whether the automatic flee applies. -/
theorem EnterCombat_eq (ai : CreatureAI) (enemy : Option Unit) :
    ∃ zone, (∀ c ∈ zone, ∃ killer, c = Call.SendZoneUnderAttackMessage killer)
      ∧ ai.EnterCombat enemy
        = (if (ai.m_creature.noMeleeFlee && !ai.m_creature.rooted && !ai.m_creature.inPanic
              && (match enemy with
                  | some e => e.playerControlled
                  | none => false)) = true then
            { ai with
              trace := ai.trace ++ [Call.UnitAI_EnterCombat (enemy.map Unit.guid),
                Call.DoFlee 30000] ++ zone
              m_currentAIOrder := AIOrders.ORDER_CRITTER_FLEE }
          else
            { ai with
              trace := ai.trace ++ [Call.UnitAI_EnterCombat (enemy.map Unit.guid)] ++ zone }) := by
  cases enemy with
  | none =>
    refine ⟨[], by simp, ?_⟩
    simp [CreatureAI.EnterCombat, CreatureAI.call]
  | some e =>
    by_cases hg : (ai.m_creature.guard || ai.m_creature.civilian) = true
    · cases hb : e.beneficiaryPlayer with
      | none =>
        refine ⟨[], by simp, ?_⟩
        by_cases hcond : (ai.m_creature.noMeleeFlee && !ai.m_creature.rooted
            && !ai.m_creature.inPanic && e.playerControlled) = true <;>
          simp [CreatureAI.EnterCombat, CreatureAI.call, CreatureAI.SetAIOrder, hcond, hg, hb]
      | some k =>
        refine ⟨[Call.SendZoneUnderAttackMessage k], by simp, ?_⟩
        by_cases hcond : (ai.m_creature.noMeleeFlee && !ai.m_creature.rooted
            && !ai.m_creature.inPanic && e.playerControlled) = true <;>
          simp [CreatureAI.EnterCombat, CreatureAI.call, CreatureAI.SetAIOrder, hcond, hg, hb]
    · refine ⟨[], by simp, ?_⟩
      by_cases hcond : (ai.m_creature.noMeleeFlee && !ai.m_creature.rooted
          && !ai.m_creature.inPanic && e.playerControlled) = true <;>
        simp [CreatureAI.EnterCombat, CreatureAI.call, CreatureAI.SetAIOrder, hcond, hg]

/-- C21: `CreatureAI::EnterCombat(enemy)` issues the automatic timed flee (`DoFlee(30000)`,
once) and sets the order to critter-flee when the creature is flagged flee-on-melee
(`NO_MELEE_FLEE`), is not rooted, is not in panic and `enemy` is non-null and
player-controlled; in every other case it issues no `DoFlee` at all and leaves the order
as it was. -/
theorem EnterCombat_flee (ai : CreatureAI) (enemy : Option Unit) :
    ((ai.m_creature.noMeleeFlee = true ∧ ai.m_creature.rooted = false
          ∧ ai.m_creature.inPanic = false
          ∧ ∃ e, enemy = some e ∧ e.playerControlled = true) →
        (ai.callsSince (ai.EnterCombat enemy)).count (Call.DoFlee 30000) = 1
        ∧ (ai.EnterCombat enemy).m_currentAIOrder = AIOrders.ORDER_CRITTER_FLEE)
    ∧ (¬(ai.m_creature.noMeleeFlee = true ∧ ai.m_creature.rooted = false
          ∧ ai.m_creature.inPanic = false
          ∧ ∃ e, enemy = some e ∧ e.playerControlled = true) →
        (∀ duration, Call.DoFlee duration ∉ ai.callsSince (ai.EnterCombat enemy))
        ∧ (ai.EnterCombat enemy).m_currentAIOrder = ai.m_currentAIOrder) := by
  have hiff : (ai.m_creature.noMeleeFlee && !ai.m_creature.rooted && !ai.m_creature.inPanic
        && (match enemy with
            | some e => e.playerControlled
            | none => false)) = true
      ↔ (ai.m_creature.noMeleeFlee = true ∧ ai.m_creature.rooted = false
          ∧ ai.m_creature.inPanic = false
          ∧ ∃ e, enemy = some e ∧ e.playerControlled = true) := by
    cases enemy with
    | none => simp
    | some e => simp [and_assoc]
  obtain ⟨zone, hzone, heq⟩ := EnterCombat_eq ai enemy
  have hz : ∀ duration, Call.DoFlee duration ∉ zone := by
    intro d hd
    obtain ⟨k, hk⟩ := hzone _ hd
    cases hk
  constructor
  · intro hcond
    rw [heq, if_pos (hiff.mpr hcond)]
    simp only [CreatureAI.callsSince]
    refine ⟨?_, trivial⟩
    simp [List.count_append, List.count_eq_zero_of_not_mem (hz 30000)]
  · intro hcond
    rw [heq, if_neg (fun h => hcond (hiff.mp h))]
    simp only [CreatureAI.callsSince]
    refine ⟨?_, trivial⟩
    intro d hd
    simp only [List.append_assoc, List.drop_left, List.singleton_append, List.mem_cons] at hd
    rcases hd with hd | hd
    · cases hd
    · exact hz d hd

/-- Witness for C21: the sample critter flees from the player-controlled sample enemy and
does not flee from a creature. -/
theorem EnterCombat_flee_witness :
    (sampleCritterAI.EnterCombat (some sampleEnemy)).m_currentAIOrder
        = AIOrders.ORDER_CRITTER_FLEE
    ∧ (sampleCritterAI.EnterCombat (some sampleTarget)).m_currentAIOrder
        = sampleCritterAI.m_currentAIOrder :=
  ⟨((EnterCombat_flee sampleCritterAI (some sampleEnemy)).1
      ⟨rfl, rfl, rfl, sampleEnemy, rfl, rfl⟩).2,
    ((EnterCombat_flee sampleCritterAI (some sampleTarget)).2
      (fun h => by
        obtain ⟨_, _, _, e, he, hp⟩ := h
        cases he
        exact absurd hp (by decide))).2⟩

/-- C22: `RelinquishFollow(follower)` calls `RelinquishFollowData` only if a requested
follower is recorded and `follower` is the empty guid or the recorded one; then the call
goes to the recorded follower when the map resolves it to a player, and nothing else
changes; called with a non-empty guid different from the recorded follower it returns the
controller as it was. -/
theorem RelinquishFollow_guard (w : World) (ai : CreatureAI) (follower : ObjectGuid) :
    (∀ player creature,
        Call.RelinquishFollowData player creature
            ∈ ai.callsSince (ai.RelinquishFollow w follower) →
        ai.m_requestedFollower ≠ 0 ∧ (follower = 0 ∨ follower = ai.m_requestedFollower))
    ∧ (ai.m_requestedFollower ≠ 0 → (follower = 0 ∨ follower = ai.m_requestedFollower) →
        ∀ owner, w.GetUnit ai.m_requestedFollower = some owner →
          owner.typeId = TypeID.TYPEID_PLAYER →
          ai.RelinquishFollow w follower
            = ai.call (Call.RelinquishFollowData owner.guid ai.m_creature.guid))
    ∧ (follower ≠ 0 → follower ≠ ai.m_requestedFollower →
        ai.RelinquishFollow w follower = ai) := by
  refine ⟨?_, ?_, ?_⟩
  · intro player creature hmem
    by_cases hc : ai.m_requestedFollower ≠ 0
        ∧ (follower = 0 ∨ ai.m_requestedFollower = follower)
    · exact ⟨hc.1, hc.2.imp id Eq.symm⟩
    · simp [CreatureAI.RelinquishFollow, hc, CreatureAI.callsSince] at hmem
  · intro hrec hfol owner hget hplayer
    have hc : ai.m_requestedFollower ≠ 0
        ∧ (follower = 0 ∨ ai.m_requestedFollower = follower) := ⟨hrec, hfol.imp id Eq.symm⟩
    simp [CreatureAI.RelinquishFollow, hc, hget, hplayer]
  · intro h0 hne
    have hc : ¬(ai.m_requestedFollower ≠ 0
        ∧ (follower = 0 ∨ ai.m_requestedFollower = follower)) := by
      rintro ⟨_, h | h⟩
      · exact h0 h
      · exact hne h.symm
    simp [CreatureAI.RelinquishFollow, hc]

/-- Witness for C22: a creature that follows player `1` relinquishes for guid `1`, and
ignores a call for guid `2`. -/
theorem RelinquishFollow_guard_witness :
    CreatureAI.RelinquishFollow sampleWorld
        (sampleAI.RequestFollow sampleWorld samplePlayer) 1
      = (sampleAI.RequestFollow sampleWorld samplePlayer).call (Call.RelinquishFollowData 1 1)
    ∧ CreatureAI.RelinquishFollow sampleWorld
        (sampleAI.RequestFollow sampleWorld samplePlayer) 2
      = sampleAI.RequestFollow sampleWorld samplePlayer :=
  ⟨(RelinquishFollow_guard sampleWorld (sampleAI.RequestFollow sampleWorld samplePlayer) 1).2.1
      (by decide) (Or.inr (by decide)) { guid := 1, typeId := TypeID.TYPEID_PLAYER }
      (by decide) rfl,
    (RelinquishFollow_guard sampleWorld (sampleAI.RequestFollow sampleWorld samplePlayer) 2).2.2
      (by decide) (by decide)⟩

/-- C23: with a victim, a positive assistance radius and an ally found by the search,
`DoRetreat` returns true, issues exactly one `MoveRetreat` (computed from the ally and
the victim, with the configured assistance delay) and nothing else, and leaves the order
retreating and the combat-script status true. -/
theorem DoRetreat_succeeds {χ : Type} (w : World) (g : AssistSearch χ) (ai : CreatureAI)
    (victim : ObjectGuid) (ally : Unit)
    (hvictim : ai.m_creature.victim = some victim)
    (hradius : 0 < w.CONFIG_FLOAT_CREATURE_FAMILY_FLEE_ASSISTANCE_RADIUS)
    (hally : ai.findAlly g victim w.CONFIG_FLOAT_CREATURE_FAMILY_FLEE_ASSISTANCE_RADIUS
      = some ally) :
    ai.DoRetreat w g
      = (true,
          { ai with
            trace := ai.trace ++ [Call.MoveRetreat ally.guid victim
              w.CONFIG_UINT32_CREATURE_FAMILY_ASSISTANCE_DELAY]
            m_currentAIOrder := AIOrders.ORDER_RETREATING
            m_combatScriptHappening := true }) := by
  unfold CreatureAI.DoRetreat
  simp only [hvictim, Int.not_le.mpr hradius, if_false, hally]
  rfl

/-- Witness for C23: the sample creature retreats to the ally `3`. -/
theorem DoRetreat_succeeds_witness :
    sampleAI.DoRetreat sampleWorld sampleSearchWithAlly
      = (true,
          { sampleAI with
            trace := sampleAI.trace ++ [Call.MoveRetreat 3 2 1500]
            m_currentAIOrder := AIOrders.ORDER_RETREATING
            m_combatScriptHappening := true }) :=
  DoRetreat_succeeds sampleWorld sampleSearchWithAlly sampleAI 2 { guid := 3 } rfl (by decide)
    (by decide)

/-- C24: `RetreatingEnded` invoked while the order is retreating sets the order to none
and the combat-script status to false; it then issues `DoStartMovement` toward the
current victim when the creature is alive, and no call at all when it is dead. -/
theorem RetreatingEnded_while_retreating (ai : CreatureAI)
    (horder : ai.m_currentAIOrder = AIOrders.ORDER_RETREATING) :
    ai.RetreatingEnded.m_currentAIOrder = AIOrders.ORDER_NONE
    ∧ ai.RetreatingEnded.m_combatScriptHappening = false
    ∧ (ai.m_creature.alive = true →
        ai.RetreatingEnded.trace = ai.trace ++ [Call.DoStartMovement ai.m_creature.victim])
    ∧ (ai.m_creature.alive = false → ai.RetreatingEnded.trace = ai.trace) := by
  cases halive : ai.m_creature.alive <;>
    simp [CreatureAI.RetreatingEnded, CreatureAI.GetAIOrder, CreatureAI.SetAIOrder,
      CreatureAI.SetCombatScriptStatus, CreatureAI.call, horder, halive]

/-- Witness for C24: a living retreating creature resumes movement toward its victim. -/
theorem RetreatingEnded_while_retreating_witness :
    (CreatureAI.RetreatingEnded
      { m_creature := { guid := 1, victim := some 2 },
        m_currentAIOrder := AIOrders.ORDER_RETREATING,
        m_combatScriptHappening := true }).trace
      = [] ++ [Call.DoStartMovement (some 2)] :=
  (RetreatingEnded_while_retreating
    { m_creature := { guid := 1, victim := some 2 },
      m_currentAIOrder := AIOrders.ORDER_RETREATING,
      m_combatScriptHappening := true } rfl).2.2.1 rfl

/-- C27: after the constructor the melee-enabled state is decided by the no-melee extra
flag of the creature template alone (enabled exactly when the flag is absent), whatever
the `NO_MELEE_FLEE` static flag and the base-class constructor set before; so a creature
with `NO_MELEE_FLEE` set and the extra flag absent ends construction with melee
enabled. -/
theorem new_meleeEnabled (w : World) (unitAI : CreatureAI) :
    ((CreatureAI.new w unitAI).m_meleeEnabled = true
        ↔ unitAI.m_creature.extraFlags &&& w.CREATURE_EXTRA_FLAG_NO_MELEE = 0)
    ∧ (unitAI.m_creature.noMeleeFlee = true →
        unitAI.m_creature.extraFlags &&& w.CREATURE_EXTRA_FLAG_NO_MELEE = 0 →
        (CreatureAI.new w unitAI).m_meleeEnabled = true) := by
  have h : (CreatureAI.new w unitAI).m_meleeEnabled
      = !((unitAI.m_creature.extraFlags &&& w.CREATURE_EXTRA_FLAG_NO_MELEE) != 0) := by
    unfold CreatureAI.new
    simp only [CreatureAI.SetMeleeEnabled, CreatureAI.SetAIImmobilizedState,
      CreatureAI.SetReactState]
    split <;> split <;> split <;> rfl
  rw [h]
  constructor
  · simp
  · intro _ h0
    simp [h0]

/-- Witness for C27: a critter flagged `NO_MELEE_FLEE` without the no-melee extra flag is
constructed with melee enabled. -/
theorem new_meleeEnabled_witness :
    (CreatureAI.new sampleWorld sampleCritterAI).m_meleeEnabled = true :=
  (new_meleeEnabled sampleWorld sampleCritterAI).2 rfl (by decide)

/-! ## Theorems: area-effect updater, third part -/

/-- C25, as stated, fails for a caster that is not player-controlled and a
player-controlled target: they differ in control type, the radius enlarged by the combat
reach is `5` and the target at squared distance `16` is within it, yet the radius used is
the plain `3` and the target is skipped (at squared distance `4` it is not). -/
theorem rangeRadius_one_direction :
    sampleUpdater.i_dynobject.caster.playerControlled ≠ samplePlayerTarget.playerControlled
    ∧ sampleUpdater.radiusByControlType samplePlayerTarget = 5
    ∧ ¬(sampleSpellWorldFar.GetDistance sampleUpdater.i_dynobject samplePlayerTarget
          > sampleUpdater.radiusByControlType samplePlayerTarget
            * sampleUpdater.radiusByControlType samplePlayerTarget)
    ∧ sampleUpdater.rangeRadius samplePlayerTarget = 3
    ∧ sampleUpdater.VisitHelper sampleSpellWorldFar samplePlayerTarget
        = (sampleUpdater, samplePlayerTarget)
    ∧ sampleUpdater.VisitHelper sampleSpellWorld samplePlayerTarget
        ≠ (sampleUpdater, samplePlayerTarget) := by
  decide

/-- The in-range test of `VisitHelper` compares with the radius of lines 201-203. -/
theorem passesUnitChecks_range (w : SpellWorld) (u : DynamicObjectUpdater) (target : Unit) :
    u.passesUnitChecks w target
      = (if !target.alive || target.taxiFlying then false
         else if decide (target.typeId = TypeID.TYPEID_UNIT) && target.totem then false
         else if w.GetDistance u.i_dynobject target > u.rangeRadius target * u.rangeRadius target
           then false
         else if target.evadeMode then false
         else if decide (target.typeId = TypeID.TYPEID_PLAYER)
             && decide (target.guid ≠ u.i_check)
             && (target.gameMaster || target.visibilityOff) then false
         else true) := rfl

/-- C25, amended: the radius of the in-range test of `VisitHelper` is the anchor's radius
plus the target's combat reach when the caster is player-controlled and the target is
not, and the plain anchor radius in every other case (same control type, or a caster that
is not player-controlled with a player-controlled target); a target whose squared
distance exceeds the square of that radius is skipped, and a target within it that is
alive, not in transit, not a totem creature, not evading and not a hidden game master
passes the checks of lines 194-213. -/
theorem rangeRadius_used (w : SpellWorld) (u : DynamicObjectUpdater) (target : Unit) :
    (u.i_dynobject.caster.playerControlled = true → target.playerControlled = false →
        u.rangeRadius target = u.i_dynobject.radius + target.combatReach)
    ∧ (¬(u.i_dynobject.caster.playerControlled = true ∧ target.playerControlled = false) →
        u.rangeRadius target = u.i_dynobject.radius)
    ∧ (w.GetDistance u.i_dynobject target > u.rangeRadius target * u.rangeRadius target →
        u.VisitHelper w target = (u, target))
    ∧ (¬(w.GetDistance u.i_dynobject target > u.rangeRadius target * u.rangeRadius target) →
        target.alive = true → target.taxiFlying = false →
        ¬(target.typeId = TypeID.TYPEID_UNIT ∧ target.totem = true) →
        target.evadeMode = false →
        ¬(target.typeId = TypeID.TYPEID_PLAYER ∧ target.guid ≠ u.i_check
            ∧ (target.gameMaster = true ∨ target.visibilityOff = true)) →
        u.passesUnitChecks w target = true) := by
  refine ⟨?_, ?_, ?_, ?_⟩
  · intro h1 h2
    simp [DynamicObjectUpdater.rangeRadius, h1, h2]
  · intro h
    have hb : (u.i_dynobject.caster.playerControlled && !target.playerControlled) = false := by
      cases h1 : u.i_dynobject.caster.playerControlled <;>
        cases h2 : target.playerControlled <;> simp_all
    simp [DynamicObjectUpdater.rangeRadius, hb]
  · intro hfar
    have hfail : u.passesUnitChecks w target = false := by
      rw [passesUnitChecks_range]
      simp only [hfar, if_true]
      split
      · rfl
      · split <;> rfl
    simp [DynamicObjectUpdater.VisitHelper, hfail]
  · intro hnear halive htaxi htotem hevade hgm
    rw [passesUnitChecks_range]
    have ht : (decide (target.typeId = TypeID.TYPEID_UNIT) && target.totem) = false := by
      cases ht1 : target.totem
      · simp
      · cases hty : target.typeId
        · exact absurd ⟨hty, ht1⟩ htotem
        · simp
    have hg : (decide (target.typeId = TypeID.TYPEID_PLAYER) && decide (target.guid ≠ u.i_check)
        && (target.gameMaster || target.visibilityOff)) = false := by
      cases hb : (decide (target.typeId = TypeID.TYPEID_PLAYER)
          && decide (target.guid ≠ u.i_check)
          && (target.gameMaster || target.visibilityOff))
      · rfl
      · exfalso
        simp only [Bool.and_eq_true, decide_eq_true_eq, Bool.or_eq_true] at hb
        exact hgm ⟨hb.1.1, hb.1.2, hb.2⟩
    simp only [halive, htaxi, ht, hnear, hevade, hg, Bool.not_true, Bool.or_self,
      Bool.false_eq_true, if_false]

/-- Witness for C25: the player-controlled sample target is tested against the plain
radius `3` of the sample anchor, whose caster is a creature; at squared distance `16` it
is skipped. -/
theorem rangeRadius_used_witness :
    sampleUpdater.rangeRadius samplePlayerTarget = sampleUpdater.i_dynobject.radius
    ∧ sampleUpdater.VisitHelper sampleSpellWorldFar samplePlayerTarget
        = (sampleUpdater, samplePlayerTarget) :=
  ⟨(rangeRadius_used sampleSpellWorldFar sampleUpdater samplePlayerTarget).2.1 (by decide),
    (rangeRadius_used sampleSpellWorldFar sampleUpdater samplePlayerTarget).2.2.1 (by decide)⟩

/-! ## Theorems: searchers, second part -/

/-- A first-match loop over two collections in a row: the second `Visit` finds the
result of the first already set, or goes on where the first loop ended. -/
theorem firstLoop_append {α χ : Type} (GetPhaseMask : α → Nat) (check : χ → α → Bool × χ)
    (m1 m2 : List α) :
    ∀ s : ObjectSearcher α χ, s.i_object = none →
      ObjectSearcher.VisitFirst GetPhaseMask check
          (ObjectSearcher.firstLoop GetPhaseMask check s m1) m2
        = ObjectSearcher.firstLoop GetPhaseMask check s (m1 ++ m2) := by
  induction m1 with
  | nil =>
    intro s hs
    simp [ObjectSearcher.firstLoop, ObjectSearcher.VisitFirst, hs]
  | cons a rest ih =>
    intro s hs
    rw [List.cons_append]
    conv => lhs; arg 3; unfold ObjectSearcher.firstLoop
    conv => rhs; unfold ObjectSearcher.firstLoop
    by_cases hp : InSamePhase GetPhaseMask s.i_phaseMask a = true
    · simp only [hp, Bool.not_true, Bool.false_eq_true, if_false]
      by_cases hc : (check s.i_check a).1 = true
      · simp [hc, ObjectSearcher.VisitFirst]
      · simp only [hc, Bool.false_eq_true, if_false]
        exact ih { s with i_check := (check s.i_check a).2 } hs
    · simp only [Bool.not_eq_true] at hp
      simp only [hp, Bool.not_false, if_true]
      exact ih s hs

/-- C26: for each searcher shape (first-match, last-match, collect-all) and every check
functor, in particular every pure predicate, `Visit` on a collection `m1` and then on a
collection `m2` with the same searcher ends in the same searcher (same result, same
functor state) as one `Visit` on `m1` followed by `m2`. -/
theorem Visit_append {α χ : Type} (GetPhaseMask : α → Nat) (check : χ → α → Bool × χ)
    (m1 m2 : List α) :
    (∀ s : ObjectSearcher α χ,
      ObjectSearcher.VisitFirst GetPhaseMask check
          (ObjectSearcher.VisitFirst GetPhaseMask check s m1) m2
        = ObjectSearcher.VisitFirst GetPhaseMask check s (m1 ++ m2))
    ∧ (∀ s : ObjectSearcher α χ,
      ObjectSearcher.VisitLast GetPhaseMask check
          (ObjectSearcher.VisitLast GetPhaseMask check s m1) m2
        = ObjectSearcher.VisitLast GetPhaseMask check s (m1 ++ m2))
    ∧ (∀ s : ListSearcher α χ,
      ListSearcher.Visit GetPhaseMask check (ListSearcher.Visit GetPhaseMask check s m1) m2
        = ListSearcher.Visit GetPhaseMask check s (m1 ++ m2)) := by
  refine ⟨?_, fun s => (VisitLast_append GetPhaseMask check s m1 m2).symm, ?_⟩
  · intro s
    cases hs : s.i_object with
    | some x => simp [ObjectSearcher.VisitFirst, hs]
    | none =>
      have h := firstLoop_append GetPhaseMask check m1 m2 s hs
      simp only [ObjectSearcher.VisitFirst, hs, Option.isSome_none, Bool.false_eq_true,
        if_false] at h ⊢
      exact h
  · intro s
    simp [ListSearcher.Visit, List.foldl_append]

end MaNGOS
